import Mathlib

/-!
Waypoint: the content-aggregation engine of `server.js`

A shallow embedding of the source fetchers of `src/server.js` (the news
extraction loop of `scrapeNews`, the fallback synthesizer `getMockNewsData`,
the three social mock fetchers and the video fetcher `scrapeYouTube`) and of
the handler of `/api/search`, followed by theorems about them.

Modelling conventions.
* A JavaScript string is a Lean `String`; `jsLength` counts UTF-16 code
  units, as the `length` property does.
* The HTML query library is external: a fetched page is modelled by what the
  selector queries return on it (`Page`), the outbound request by a function
  that may fail (`Option Page`).
* Runtime built-ins whose full definition lies outside the repository are
  parameters: `encodeURIComponent` and `toLowerCase` are fields of `JsRuntime`,
  `JSON.parse` and the coercions of non-primitive values fields of `JsonRuntime`.
-/

namespace Waypoint

/-! ## JavaScript string primitives -/

/-- Number of UTF-16 code units of one character. -/
def utf16Units (c : Char) : Nat := if c.toNat < 65536 then 1 else 2

/-- The `length` property of a JavaScript string: UTF-16 code units. -/
def jsLength (s : String) : Nat := (s.data.map utf16Units).sum

/-- The test `s.startsWith(p)`. -/
def jsStartsWith (s p : String) : Bool := p.data.isPrefixOf s.data

/-- Whether `pat` occurs in `s` at some position of the character list. -/
def includesAux (pat : List Char) : List Char → Bool
  | [] => pat.isEmpty
  | c :: cs => pat.isPrefixOf (c :: cs) || includesAux pat cs

/-- The test `s.includes(pat)`. -/
def jsIncludes (s pat : String) : Bool := includesAux pat.data s.data

/-- White space and line terminators, the characters removed by `trim()` and
matched by the regular expression class `\s`. -/
def jsIsWhiteSpace (c : Char) : Bool :=
  let n := c.toNat
  n == 9 || n == 10 || n == 11 || n == 12 || n == 13 || n == 32 || n == 160 ||
  n == 5760 || (8192 ≤ n && n ≤ 8202) || n == 8232 || n == 8233 || n == 8239 ||
  n == 8287 || n == 12288 || n == 65279

/-- The method `s.trim()`. -/
def jsTrim (s : String) : String :=
  ⟨((s.data.dropWhile jsIsWhiteSpace).reverse.dropWhile jsIsWhiteSpace).reverse⟩

/-- Truthiness of a string value: every string but the empty one. -/
def jsTruthyStr (s : String) : Bool := s != ""

/-- Truthiness of a value that is a string or `undefined`. -/
def jsTruthy : Option String → Bool
  | none => false
  | some s => jsTruthyStr s

/-- The operator `a || b` on values that are strings or `undefined`. -/
def jsOr (a b : Option String) : Option String := if jsTruthy a then a else b

/-- ASCII upper-casing of one character. -/
def asciiUpper (c : Char) : Char :=
  if 97 ≤ c.toNat ∧ c.toNat ≤ 122 then Char.ofNat (c.toNat - 32) else c

/-- The method `toUpperCase()` on the strings it is applied to in this
program: the source keys, which are ASCII (every other key returns before the
call is reached). -/
def toUpperCase (s : String) : String := ⟨s.data.map asciiUpper⟩

/-- Built-ins of the runtime that the program calls on arbitrary input. -/
structure JsRuntime where
  /-- The global function `encodeURIComponent`. -/
  encodeURIComponent : String → String
  /-- The method `String.prototype.toLowerCase`. -/
  toLowerCase : String → String

/-! ## Data model -/

/-- A content record `{title, url, thumbnail, source}`. -/
structure ContentRecord where
  title : String
  url : String
  thumbnail : String
  source : String
deriving DecidableEq, Repr

/-- One selector strategy of the catalog. -/
structure Selector where
  article : String
  title : String
  link : String
  img : String
deriving DecidableEq, Repr

/-- What the sub-queries of a strategy return on one matched container:
the text of the first title element (empty when there is none), and the
attributes of the first link and first image (`none` for `undefined`). -/
structure Container where
  titleText : String
  href : Option String
  src : Option String
  dataSrc : Option String
  dataLazySrc : Option String
deriving DecidableEq, Repr

/-- A loaded page: the containers matched by `$(selector.article)`, in
document order, with the sub-queries of that strategy resolved. -/
abbrev Page := Selector → List Container

/-! ## The selector catalog and the extraction loop of `scrapeNews` -/

/-- The table `selectors`, indexed as `selectors[source] || []`. -/
def selectors (source : String) : List Selector :=
  if source = "cnn" then
    [ ⟨".container__item", ".container__title", "a", "img"⟩,
      ⟨".card", "h3", "a", "img"⟩,
      ⟨"article", "h2, h3", "a", "img"⟩ ]
  else if source = "fox" then
    [ ⟨"article.article", "h2.title, h3", "a", "img"⟩,
      ⟨".content-list article", "h4, h3", "a", "img"⟩,
      ⟨".collection-article-list article", "h2, h3", "a", "img"⟩ ]
  else if source = "bbc" then
    [ ⟨"[data-testid=\"card\"]", "h3", "a", "img"⟩,
      ⟨"article", "h3, h2", "a", "img"⟩,
      ⟨".gel-layout__item", "h3", "a", "img"⟩ ]
  else []

/-- The statement "Make link absolute". -/
def absolutizeLink (baseUrl link : String) : String :=
  if !jsStartsWith link "http" then
    if jsStartsWith link "/" then baseUrl ++ link else baseUrl ++ "/" ++ link
  else link

/-- The statement "Make thumbnail absolute". -/
def absolutizeThumbnail (baseUrl : String) (thumbnail : Option String) : Option String :=
  match thumbnail with
  | none => none
  | some t =>
    if jsTruthyStr t && !jsStartsWith t "http" && !jsStartsWith t "data:" then
      some (if jsStartsWith t "/" then baseUrl ++ t else baseUrl ++ "/" ++ t)
    else some t

/-- The statement "Filter out bad thumbnails". -/
def filterThumbnail (thumbnail : Option String) : Option String :=
  match thumbnail with
  | none => none
  | some t =>
    if jsTruthyStr t && (jsIncludes t "data:image" || decide (jsLength t > 500)) then some ""
    else some t

/-- The raw thumbnail reference of a container:
`attr('src') || attr('data-src') || attr('data-lazy-src')`. -/
def rawThumbnail (c : Container) : Option String :=
  jsOr (jsOr c.src c.dataSrc) c.dataLazySrc

/-- The final `thumbnail || ''`. -/
def thumbnailOrEmpty (thumbnail : Option String) : String :=
  match thumbnail with
  | none => ""
  | some t => t

/-- The test `results.some(r => r.title === title || r.url === link)`. -/
def isDuplicate (results : List ContentRecord) (title link : String) : Bool :=
  results.any (fun r => r.title == title || r.url == link)

/-- The body of the `.each` callback: one container against the records
accepted so far. -/
def processElem (baseUrl source : String) (results : List ContentRecord)
    (c : Container) : List ContentRecord :=
  if results.length ≥ 5 then results
  else
    let title := jsTrim c.titleText
    match c.href with
    | none => results
    | some href =>
      if jsTruthyStr title && jsTruthyStr href && decide (jsLength title > 10) then
        let link := absolutizeLink baseUrl href
        let thumbnail := filterThumbnail (absolutizeThumbnail baseUrl (rawThumbnail c))
        if !isDuplicate results title link then
          results ++ [⟨title, link, thumbnailOrEmpty thumbnail, toUpperCase source⟩]
        else results
      else results

/-- The `for (const selector of sourceSelectors)` loop, started from the
records accepted so far. Each strategy scans `slice(0, 8)` of its matches. -/
def extractLoop (page : Page) (baseUrl source : String) :
    List Selector → List ContentRecord → List ContentRecord
  | [], results => results
  | sel :: rest, results =>
    if results.length ≥ 5 then results
    else extractLoop page baseUrl source rest
      (((page sel).take 8).foldl (processElem baseUrl source) results)

/-- The records the extraction loop of `scrapeNews` accumulates on a page. -/
def extractNews (page : Page) (baseUrl source : String) : List ContentRecord :=
  extractLoop page baseUrl source (selectors source) []

/-! ## The fallback synthesizer -/

/-- The constant `locationText`. -/
def locationText (location : String) : String :=
  if jsTruthyStr location then " in " ++ location else ""

/-- The entry `baseData[source]`: the placeholder thumbnail and the title
templates of an outlet, `none` when the key is not in the table. -/
def baseData (source query location : String) : Option (String × List String) :=
  if source = "cnn" then
    some ("https://via.placeholder.com/640x360/CC0000/FFFFFF?text=CNN",
      [ "Breaking: " ++ query ++ " developments" ++ locationText location,
        "Analysis: Understanding " ++ query,
        query ++ " impact on communities",
        "Latest updates on " ++ query,
        "Experts weigh in on " ++ query ])
  else if source = "fox" then
    some ("https://via.placeholder.com/640x360/003366/FFFFFF?text=Fox+News",
      [ query ++ " situation unfolds" ++ locationText location,
        "What you need to know about " ++ query,
        query ++ ": Key takeaways",
        "Breaking coverage: " ++ query,
        query ++ " update: Full story" ])
  else if source = "bbc" then
    some ("https://via.placeholder.com/640x360/000000/FFFFFF?text=BBC",
      [ query ++ ": What's happening" ++ locationText location,
        query ++ " explained",
        "The story behind " ++ query,
        query ++ ": Latest developments",
        "In-depth: " ++ query ++ " coverage" ])
  else none

/-- The destination of every fallback record of an outlet. -/
def mockUrl (source : String) : String :=
  if source = "cnn" then "https://www.cnn.com"
  else if source = "fox" then "https://www.foxnews.com"
  else "https://www.bbc.com/news"

/-- The function `getMockNewsData`. -/
def getMockNewsData (source query location : String) : List ContentRecord :=
  match baseData source query location with
  | none => []
  | some (thumbnail, articles) =>
    articles.map (fun title => ⟨title, mockUrl source, thumbnail, toUpperCase source⟩)

/-! ## The news fetcher -/

/-- The `switch (source)` of `scrapeNews`: the outlet's base URL and the URL
to request, `none` for the `default` branch. -/
def newsTarget (rt : JsRuntime) (source query : String) : Option (String × String) :=
  if source = "cnn" then
    some ("https://www.cnn.com",
      if jsTruthyStr query then
        "https://www.cnn.com" ++ "/search?q=" ++ rt.encodeURIComponent query
      else "https://www.cnn.com")
  else if source = "fox" then
    some ("https://www.foxnews.com",
      if jsTruthyStr query then
        "https://www.foxnews.com" ++ "/search-results/search?q=" ++ rt.encodeURIComponent query
      else "https://www.foxnews.com")
  else if source = "bbc" then
    some ("https://www.bbc.com",
      if jsTruthyStr query then
        "https://www.bbc.com" ++ "/search?q=" ++ rt.encodeURIComponent query
      else "https://www.bbc.com" ++ "/news")
  else none

/-- The records held by `results` when the `try` block of `scrapeNews` is
left: the extraction on the loaded page, or nothing when the request fails
(`fetch url = none`: network error, timeout, unparsable body). -/
def liveNews (rt : JsRuntime) (fetch : String → Option Page)
    (source query : String) : Option (List ContentRecord) :=
  match newsTarget rt source query with
  | none => none
  | some (baseUrl, url) =>
    match fetch url with
    | none => some []
    | some page => some (extractNews page baseUrl source)

/-- The function `scrapeNews`. -/
def scrapeNews (rt : JsRuntime) (fetch : String → Option Page)
    (source query location : String) : List ContentRecord :=
  match liveNews rt fetch source query with
  | none => []
  | some results =>
    if results.length = 0 then getMockNewsData source query location
    else results

/-! ## The social mock fetchers -/

/-- The function `scrapeTikTok`. -/
def scrapeTikTok (rt : JsRuntime) (query : String) : List ContentRecord :=
  [ ⟨query ++ " trending on TikTok",
      "https://www.tiktok.com/search?q=" ++ rt.encodeURIComponent query,
      "https://via.placeholder.com/640x360/000000/FFFFFF?text=TikTok", "TikTok"⟩,
    ⟨query ++ " viral content",
      "https://www.tiktok.com/search?q=" ++ rt.encodeURIComponent query,
      "https://via.placeholder.com/640x360/000000/FFFFFF?text=TikTok", "TikTok"⟩,
    ⟨"Latest " ++ query ++ " videos",
      "https://www.tiktok.com/search?q=" ++ rt.encodeURIComponent query,
      "https://via.placeholder.com/640x360/000000/FFFFFF?text=TikTok", "TikTok"⟩ ]

/-- The constant `tag` of `scrapeInstagram`:
`query.replace(/\s+/g, '').toLowerCase()`. -/
def instagramTag (rt : JsRuntime) (query : String) : String :=
  rt.toLowerCase ⟨query.data.filter (fun c => !jsIsWhiteSpace c)⟩

/-- The function `scrapeInstagram`. -/
def scrapeInstagram (rt : JsRuntime) (query : String) : List ContentRecord :=
  [ ⟨"#" ++ instagramTag rt query ++ " on Instagram",
      "https://www.instagram.com/explore/tags/" ++ instagramTag rt query ++ "/",
      "https://via.placeholder.com/640x360/E4405F/FFFFFF?text=Instagram", "Instagram"⟩,
    ⟨query ++ " posts and reels",
      "https://www.instagram.com/explore/tags/" ++ instagramTag rt query ++ "/",
      "https://via.placeholder.com/640x360/E4405F/FFFFFF?text=Instagram", "Instagram"⟩,
    ⟨"Explore " ++ query ++ " content",
      "https://www.instagram.com/explore/tags/" ++ instagramTag rt query ++ "/",
      "https://via.placeholder.com/640x360/E4405F/FFFFFF?text=Instagram", "Instagram"⟩ ]

/-- The function `scrapeTwitch`. -/
def scrapeTwitch (rt : JsRuntime) (query : String) : List ContentRecord :=
  [ ⟨query ++ " live streams on Twitch",
      "https://www.twitch.tv/search?term=" ++ rt.encodeURIComponent query,
      "https://via.placeholder.com/640x360/9146FF/FFFFFF?text=Twitch", "Twitch"⟩,
    ⟨"Watch " ++ query ++ " gameplay",
      "https://www.twitch.tv/search?term=" ++ rt.encodeURIComponent query,
      "https://via.placeholder.com/640x360/9146FF/FFFFFF?text=Twitch", "Twitch"⟩,
    ⟨query ++ " streamers and clips",
      "https://www.twitch.tv/search?term=" ++ rt.encodeURIComponent query,
      "https://via.placeholder.com/640x360/9146FF/FFFFFF?text=Twitch", "Twitch"⟩ ]

/-! ## The video fetcher

The embedded payload is a JSON value. Property reads, optional chaining,
truthiness and the exceptions they raise are modelled on values; the payload's
numbers are taken to be integers (the program only tests them for zero). -/

/-- A JavaScript value as `JSON.parse` builds it, with `undefined` for the
result of reading an absent property. An object lists its own properties,
each key once. -/
inductive JsVal where
  | undefined
  | null
  | bool (b : Bool)
  | num (n : Int)
  | str (s : String)
  | arr (items : List JsVal)
  | obj (fields : List (String × JsVal))

/-- Whether a value is `null` or `undefined`. -/
def JsVal.isNullish : JsVal → Bool
  | .undefined => true
  | .null => true
  | _ => false

/-- Truthiness of a value. -/
def JsVal.truthy : JsVal → Bool
  | .undefined => false
  | .null => false
  | .bool b => b
  | .num n => n != 0
  | .str s => s != ""
  | .arr _ => true
  | .obj _ => true

/-- The read `v.key` on a value that is neither `null` nor `undefined`, for a
key that no prototype defines (every key the program reads but `length` and
`slice`): the own property of an object, `undefined` otherwise. -/
def JsVal.get (v : JsVal) (key : String) : JsVal :=
  match v with
  | .obj fields => (fields.lookup key).getD .undefined
  | _ => .undefined

/-- The read `v[0]` on a value that is neither `null` nor `undefined`. The
first code unit of a string is given as its first character (for a character
outside the basic plane it is a lone surrogate, a string all the same). -/
def JsVal.index0 (v : JsVal) : JsVal :=
  match v with
  | .arr items => items.head?.getD .undefined
  | .str s => if s.data.isEmpty then .undefined else .str ⟨s.data.take 1⟩
  | .obj fields => (fields.lookup "0").getD .undefined
  | _ => .undefined

/-- Built-ins the video fetcher applies to the payload. -/
structure JsonRuntime where
  /-- The function `JSON.parse`, `none` when it throws. -/
  jsonParse : String → Option JsVal
  /-- The string conversion of a template literal on a number, an array or an
  object, `none` when it throws. -/
  templateOther : JsVal → Option String
  /-- On the `length` property `w` of an object: `Except.error ()` when the
  comparison `w > 0` throws, `none` when it is false, and the property key of
  `w - 1` when it is true. -/
  lastIndexKey : JsVal → Except Unit (Option String)

/-- A record of the video list. Its title and thumbnail are whatever values
the payload holds at the places read. -/
structure VideoRecord where
  title : JsVal
  url : String
  thumbnail : JsVal
  source : String

/-- The part `s.split(sep)[1]` for a non-empty separator: the text between the
first and the second occurrence of `sep`, `none` (for `undefined`) when `sep`
does not occur. -/
def dropThrough (sep : List Char) : List Char → Option (List Char)
  | [] => none
  | c :: cs =>
    if sep.isPrefixOf (c :: cs) then some ((c :: cs).drop sep.length)
    else dropThrough sep cs

/-- The part `s.split(sep)[0]` for a non-empty separator: the text before the
first occurrence of `sep`. -/
def takeUntil (sep : List Char) : List Char → List Char
  | [] => []
  | c :: cs => if sep.isPrefixOf (c :: cs) then [] else c :: takeUntil sep cs

/-- The expression `content.split('var ytInitialData = ')[1].split(';')[0]`,
`none` when `split(...)[1]` is `undefined` and the second `split` throws. -/
def jsonStrOf (content : String) : Option String :=
  match dropThrough "var ytInitialData = ".data content.data with
  | none => none
  | some rest => some ⟨takeUntil ";".data (takeUntil "var ytInitialData = ".data rest)⟩

/-- The expression
`data?.contents?.twoColumnSearchResultsRenderer?.primaryContents?.sectionListRenderer?.contents[0]?.itemSectionRenderer?.contents || []`,
`none` when it throws (the read `[0]` is not optional). -/
def searchContents (data : JsVal) : Option JsVal :=
  if data.isNullish then some (.arr []) else
  let v2 := data.get "contents"
  if v2.isNullish then some (.arr []) else
  let v3 := v2.get "twoColumnSearchResultsRenderer"
  if v3.isNullish then some (.arr []) else
  let v4 := v3.get "primaryContents"
  if v4.isNullish then some (.arr []) else
  let v5 := v4.get "sectionListRenderer"
  if v5.isNullish then some (.arr []) else
  let v6 := v5.get "contents"
  if v6.isNullish then none else
  let v7 := v6.index0
  if v7.isNullish then some (.arr []) else
  let v8 := v7.get "itemSectionRenderer"
  if v8.isNullish then some (.arr []) else
  let v9 := v8.get "contents"
  if v9.truthy then some v9 else some (.arr [])

/-- The items the `for ... of` loop visits in `contents.slice(0, 6)`, `none`
when the call throws: a number, a boolean or an object has no method
`slice`. The items of a string are strings. -/
def sliceItems (contents : JsVal) : Option (List JsVal) :=
  match contents with
  | .arr items => some (items.take 6)
  | .str s => some ((s.data.take 6).map (fun c => .str (String.singleton c)))
  | _ => none

/-- The expression `video.thumbnail?.thumbnails || []`. -/
def thumbnailsOf (video : JsVal) : JsVal :=
  let a := video.get "thumbnail"
  if a.isNullish then .arr [] else
  let b := a.get "thumbnails"
  if b.truthy then b else .arr []

/-- The expression
`thumbnails.length > 0 ? thumbnails[thumbnails.length - 1].url : ''`,
`Except.error ()` when it throws. -/
def lastThumbnail (jrt : JsonRuntime) (thumbnails : JsVal) : Except Unit JsVal :=
  match thumbnails with
  | .arr items =>
    match items.getLast? with
    | none => .ok (.str "")
    | some last => if last.isNullish then .error () else .ok (last.get "url")
  | .str s => if s.data.isEmpty then .ok (.str "") else .ok .undefined
  | .obj fields =>
    match fields.lookup "length" with
    | none => .ok (.str "")
    | some w =>
      match jrt.lastIndexKey w with
      | .error e => .error e
      | .ok none => .ok (.str "")
      | .ok (some key) =>
        let last := (fields.lookup key).getD .undefined
        if last.isNullish then .error () else .ok (last.get "url")
  | _ => .ok (.str "")

/-- The expression `video.title?.runs?.[0]?.text || 'No title'`. -/
def titleOf (video : JsVal) : JsVal :=
  let a := video.get "title"
  if a.isNullish then .str "No title" else
  let r := a.get "runs"
  if r.isNullish then .str "No title" else
  let r0 := r.index0
  if r0.isNullish then .str "No title" else
  let t := r0.get "text"
  if t.truthy then t else .str "No title"

/-- The string a template literal makes of a value, `none` when the
conversion throws. -/
def templateString (jrt : JsonRuntime) (v : JsVal) : Option String :=
  match v with
  | .undefined => some "undefined"
  | .null => some "null"
  | .bool b => some (if b then "true" else "false")
  | .str s => some s
  | other => jrt.templateOther other

/-- The body of the `for ... of` loop on one item: `Except.error ()` when it
throws, `none` when the item has no truthy `videoRenderer`, else the record
pushed. -/
def videoOf (jrt : JsonRuntime) (item : JsVal) : Except Unit (Option VideoRecord) :=
  if item.isNullish then .error () else
  let video := item.get "videoRenderer"
  if !video.truthy then .ok none else
  match lastThumbnail jrt (thumbnailsOf video) with
  | .error e => .error e
  | .ok thumbnail =>
    match templateString jrt (video.get "videoId") with
    | none => .error ()
    | some id =>
      .ok (some ⟨titleOf video, "https://www.youtube.com/watch?v=" ++ id, thumbnail, "YouTube"⟩)

/-- The `for ... of` loop over the items: the list `videos` when the loop is
left, and whether it was left by an exception. -/
def pushItems (jrt : JsonRuntime) : List JsVal → List VideoRecord → List VideoRecord × Bool
  | [], videos => (videos, false)
  | item :: rest, videos =>
    match videoOf jrt item with
    | .error _ => (videos, true)
    | .ok none => pushItems jrt rest videos
    | .ok (some v) => pushItems jrt rest (videos ++ [v])

/-- The `for (let script of scriptTags)` loop, started from the list `videos`:
`none` when an exception leaves the outer `try` block. In the inner `try`
block an exception continues with the next script and `videos` as it is; a
run without exception ends the loop (`break`). -/
def scanScripts (jrt : JsonRuntime) :
    List (Option String) → List VideoRecord → Option (List VideoRecord)
  | [], videos => some videos
  | none :: rest, videos => scanScripts jrt rest videos
  | some content :: rest, videos =>
    if jsTruthyStr content && jsIncludes content "var ytInitialData" then
      match jsonStrOf content with
      | none => none
      | some jsonStr =>
        match jrt.jsonParse jsonStr with
        | none => scanScripts jrt rest videos
        | some data =>
          match searchContents data with
          | none => scanScripts jrt rest videos
          | some contents =>
            match sliceItems contents with
            | none => scanScripts jrt rest videos
            | some items =>
              match pushItems jrt items videos with
              | (videos', true) => scanScripts jrt rest videos'
              | (videos', false) => some videos'
    else scanScripts jrt rest videos

/-- The function `scrapeYouTube`. The request returns the contents
`$(script).html()` of the script elements of the page (`none` for `null`), or
fails (`fetch url = none`). -/
def scrapeYouTube (rt : JsRuntime) (jrt : JsonRuntime)
    (fetch : String → Option (List (Option String))) (query : String) : List VideoRecord :=
  match fetch ("https://www.youtube.com/results?search_query=" ++ rt.encodeURIComponent query) with
  | none => []
  | some scriptTags =>
    match scanScripts jrt scriptTags [] with
    | none => []
    | some videos => videos

/-! ## The search endpoint -/

/-- A value of `req.query` as the query-string parser builds it: a string, an
array (a repeated key, or a key written with brackets), or an object (a key
written with named brackets). -/
inductive QueryValue where
  | text (s : String)
  | list (items : List QueryValue)
  | object (fields : List (String × QueryValue))

/-- Truthiness of a parameter value: an array or an object is truthy, a
string is unless it is empty. -/
def QueryValue.truthy : QueryValue → Bool
  | .text s => jsTruthyStr s
  | _ => true

/-- Whether a parameter value is a string. -/
def QueryValue.isText : QueryValue → Bool
  | .text _ => true
  | _ => false

mutual
/-- The string a template literal makes of a parameter value: the string
itself, the elements of an array joined by commas, `[object Object]` for an
object (the parser gives an object no property named like one of
`Object.prototype`, so the conversion is the inherited one). -/
def QueryValue.toText : QueryValue → String
  | .text s => s
  | .list items => joinText items
  | .object _ => "[object Object]"
/-- The method `join()` of an array of parameter values. -/
def joinText : List QueryValue → String
  | [] => ""
  | [x] => x.toText
  | x :: y :: rest => x.toText ++ "," ++ joinText (y :: rest)
end

/-- The parameters `req.query` of a request to `/api/search`, `none` for
`undefined`. -/
structure SearchRequest where
  query : Option QueryValue
  location : Option QueryValue

/-- One invocation of a source fetcher by the handler, with its arguments. -/
inductive FetcherCall where
  | scrapeYouTube (query : QueryValue)
  | scrapeTikTok (query : QueryValue)
  | scrapeInstagram (query : QueryValue)
  | scrapeTwitch (query : QueryValue)
  | scrapeNews (source : String) (query : QueryValue) (location : Option QueryValue)

/-- The array under one source key of the bundle. -/
inductive SourceList where
  | videos (list : List VideoRecord)
  | records (list : List ContentRecord)

/-- The JSON payload of a response: `{ error: message }`, or the object
`{ social: {...}, news: {...} }` with the properties of each part in the
order of the object literal. -/
inductive ResponseBody where
  | error (message : String)
  | results (social news : List (String × SourceList))

/-- A response: the status code and the JSON payload. -/
structure Response where
  status : Nat
  body : ResponseBody

/-- The function `getMockNewsData` on a location as the handler passes it on.
For a string it is the function above. An array or an object is truthy, so
`locationText` is ` in ` followed by its string conversion, which the table
puts at the end of the first title of every outlet and nowhere else. -/
def getMockNewsDataAt (source query : String) (location : QueryValue) : List ContentRecord :=
  match location with
  | .text s => getMockNewsData source query s
  | v =>
    match getMockNewsData source query "" with
    | [] => []
    | r :: rest => ⟨r.title ++ " in " ++ v.toText, r.url, r.thumbnail, r.source⟩ :: rest

/-- The function `scrapeNews` on a string query and a location as the handler
passes it on; the default `''` stands for a missing location. -/
def scrapeNewsAt (rt : JsRuntime) (fetch : String → Option Page)
    (source query : String) (location : Option QueryValue) : List ContentRecord :=
  match liveNews rt fetch source query with
  | none => []
  | some results =>
    if results.length = 0 then getMockNewsDataAt source query (location.getD (.text ""))
    else results

/-- The handler of `GET /api/search`: the response and the fetchers it
invoked, in the order of the array handed to `Promise.all`.
A falsy query (missing, or the empty string) is answered with 400 before the
array is built. Otherwise all seven fetchers are called. On a string query
none of their promises rejects and the bundle is sent with the default
status 200. On an array or an object `scrapeInstagram` calls `query.replace`,
which is not a function there: its promise rejects, `Promise.all` rejects
and the `catch` branch answers 500. -/
def apiSearch (rt : JsRuntime) (jrt : JsonRuntime)
    (fetchVideo : String → Option (List (Option String)))
    (fetchNews : String → Option Page) (req : SearchRequest) :
    Response × List FetcherCall :=
  match req.query with
  | none => (⟨400, .error "Query parameter required"⟩, [])
  | some value =>
    if !value.truthy then (⟨400, .error "Query parameter required"⟩, [])
    else
      let location := req.location
      let calls : List FetcherCall :=
        [.scrapeYouTube value, .scrapeTikTok value, .scrapeInstagram value,
          .scrapeTwitch value, .scrapeNews "cnn" value location,
          .scrapeNews "fox" value location, .scrapeNews "bbc" value location]
      match value with
      | .text query =>
        let youtube := scrapeYouTube rt jrt fetchVideo query
        let tiktok := scrapeTikTok rt query
        let instagram := scrapeInstagram rt query
        let twitch := scrapeTwitch rt query
        let cnn := scrapeNewsAt rt fetchNews "cnn" query location
        let fox := scrapeNewsAt rt fetchNews "fox" query location
        let bbc := scrapeNewsAt rt fetchNews "bbc" query location
        (⟨200, .results
            [("youtube", .videos youtube), ("tiktok", .records tiktok),
              ("instagram", .records instagram), ("twitch", .records twitch)]
            [("cnn", .records cnn), ("fox", .records fox), ("bbc", .records bbc)]⟩,
          calls)
      | _ => (⟨500, .error "Search failed"⟩, calls)

/-! ## Vocabulary of the statements -/

/-- The conditions under which the callback accepts a container, and the
record it then appends. -/
def Accepts (baseUrl : String) (results : List ContentRecord)
    (c : Container) (href : String) : Prop :=
  results.length < 5 ∧ c.href = some href ∧
  jsTruthyStr (jsTrim c.titleText) = true ∧ jsTruthyStr href = true ∧
  jsLength (jsTrim c.titleText) > 10 ∧
  isDuplicate results (jsTrim c.titleText) (absolutizeLink baseUrl href) = false

/-- The record built from a container and its link. -/
def recordOf (baseUrl source : String) (c : Container) (href : String) : ContentRecord :=
  ⟨jsTrim c.titleText, absolutizeLink baseUrl href,
    thumbnailOrEmpty (filterThumbnail (absolutizeThumbnail baseUrl (rawThumbnail c))),
    toUpperCase source⟩

/-- No two positions of the list hold the same title. -/
def TitlesDistinct (l : List ContentRecord) : Prop := (l.map (fun r => r.title)).Nodup

/-- No two positions of the list hold the same url. -/
def UrlsDistinct (l : List ContentRecord) : Prop := (l.map (fun r => r.url)).Nodup

/-- The dedup invariant of a list of records: no two positions share a title
and no two positions share a url. -/
def Dedup (l : List ContentRecord) : Prop := TitlesDistinct l ∧ UrlsDistinct l

/-- The dedup invariant read over every per-source list of the bundle that
is not the video list. -/
def BundleDedup (rt : JsRuntime) (fetch : String → Option Page)
    (query location : String) : Prop :=
  Dedup (scrapeTikTok rt query) ∧ Dedup (scrapeInstagram rt query) ∧
  Dedup (scrapeTwitch rt query) ∧
  Dedup (scrapeNews rt fetch "cnn" query location) ∧
  Dedup (scrapeNews rt fetch "fox" query location) ∧
  Dedup (scrapeNews rt fetch "bbc" query location)

/-- A runtime for the worked examples. Its built-ins are the identity,
which is what `encodeURIComponent` and `toLowerCase` compute on the example
queries (lower-case ASCII letters only). -/
def sampleRuntime : JsRuntime := ⟨id, id⟩

/-- Occurrences of a character in a string. -/
def countChar (c : Char) (s : String) : Nat := s.data.count c

/-- The last character of a string, if any. -/
def lastChar (s : String) : Option Char := s.data.getLast?

/-- Whether the raw thumbnail reference of a container contains the text
`data:image` or is longer than 500 code units. -/
def badRawThumbnail (c : Container) : Bool :=
  match rawThumbnail c with
  | none => false
  | some t => jsIncludes t "data:image" || decide (jsLength t > 500)

/-- A page whose second `cnn` strategy matches four containers. -/
def samplePage : Page := fun sel =>
  if sel.article = ".card" then
    [ ⟨"  Hello world news  ", some "/a/b", some "data:image/gif;base64,R0lGOD", none, none⟩,
      ⟨"0123456789", some "/short", none, none, none⟩,
      ⟨"Another headline here", some "story.html", some "", some "img.png", none⟩,
      ⟨"Hello world news", some "/other", none, none, none⟩ ]
  else []

/-- A page whose first `cnn` strategy matches one container, the image of
which carries a data-URI without the text `data:image`. -/
def dataUriPage : Page := fun sel =>
  if sel.article = ".container__item" then
    [ ⟨"Hello world news", some "/a/b", some "data:;base64,R0lGOD", none, none⟩ ]
  else []

/-- An absolute URL in the sense of the specification: it begins with
`http://` or `https://`. -/
def isAbsoluteUrl (s : String) : Bool :=
  jsStartsWith s "http://" || jsStartsWith s "https://"

/-- The link without its leading `/`, if it has one. -/
def dropLeadingSlash (s : String) : String :=
  if jsStartsWith s "/" then ⟨s.data.drop 1⟩ else s

/-- A page whose first `cnn` strategy matches one container, the link of
which is the relative reference `http-errors.html`. -/
def relativeLinkPage : Page := fun sel =>
  if sel.article = ".container__item" then
    [ ⟨"Hello world news", some "http-errors.html", none, none, none⟩ ]
  else []

/-- The source keys of the three outlets. -/
def IsOutlet (source : String) : Prop := source = "cnn" ∨ source = "fox" ∨ source = "bbc"

/-- The placeholder thumbnail of an outlet in the table `baseData`. -/
def mockThumbnail (source : String) : String :=
  if source = "cnn" then "https://via.placeholder.com/640x360/CC0000/FFFFFF?text=CNN"
  else if source = "fox" then "https://via.placeholder.com/640x360/003366/FFFFFF?text=Fox+News"
  else "https://via.placeholder.com/640x360/000000/FFFFFF?text=BBC"

/-- The payload shape the video fetcher walks, around a list of items. -/
def searchPayload (items : List JsVal) : JsVal :=
  .obj [("contents", .obj [("twoColumnSearchResultsRenderer", .obj [("primaryContents",
    .obj [("sectionListRenderer", .obj [("contents",
      .arr [.obj [("itemSectionRenderer", .obj [("contents", .arr items)])]])])])])])]

/-- An item with a `videoRenderer` that holds a `videoId` only. -/
def videoItem (id : String) : JsVal :=
  .obj [("videoRenderer", .obj [("videoId", .str id)])]

/-- The JSON text of a payload whose item list is one video followed by `null`. -/
def firstPayloadText : String :=
  "\x7b\"contents\":\x7b\"twoColumnSearchResultsRenderer\":\x7b\"primaryConte" ++
  "nts\":\x7b\"sectionListRenderer\":\x7b\"contents\":[\x7b\"itemSectionRender" ++
  "er\":\x7b\"contents\":[\x7b\"videoRenderer\":\x7b\"videoId\":\"a\"\x7d\x7d,null]\x7d\x7d]\x7d" ++
  "\x7d\x7d\x7d\x7d"

/-- The JSON text of a payload whose item list is six videos. -/
def secondPayloadText : String :=
  "\x7b\"contents\":\x7b\"twoColumnSearchResultsRenderer\":\x7b\"primaryConte" ++
  "nts\":\x7b\"sectionListRenderer\":\x7b\"contents\":[\x7b\"itemSectionRender" ++
  "er\":\x7b\"contents\":[\x7b\"videoRenderer\":\x7b\"videoId\":\"b\"\x7d\x7d,\x7b\"videoRe" ++
  "nderer\":\x7b\"videoId\":\"c\"\x7d\x7d,\x7b\"videoRenderer\":\x7b\"videoId\":\"d\"\x7d\x7d,\x7b" ++
  "\"videoRenderer\":\x7b\"videoId\":\"e\"\x7d\x7d,\x7b\"videoRenderer\":\x7b\"videoId\"" ++
  ":\"f\"\x7d\x7d,\x7b\"videoRenderer\":\x7b\"videoId\":\"g\"\x7d\x7d]\x7d\x7d]\x7d\x7d\x7d\x7d\x7d"

/-- The value of `firstPayloadText`. -/
def firstPayload : JsVal := searchPayload [videoItem "a", .null]

/-- The value of `secondPayloadText`. -/
def secondPayload : JsVal :=
  searchPayload [videoItem "b", videoItem "c", videoItem "d", videoItem "e", videoItem "f",
    videoItem "g"]

/-- A runtime for the worked example of the video fetcher: `JSON.parse` on
the two payload texts of the example (no other text is parsed there); the
coercion hooks are not reached. -/
def sampleJsonRuntime : JsonRuntime where
  jsonParse := fun s =>
    if s = firstPayloadText then some firstPayload
    else if s = secondPayloadText then some secondPayload
    else none
  templateOther := fun _ => none
  lastIndexKey := fun _ => .ok none

/-- A results page with two script blocks that assign `ytInitialData`. -/
def twoScriptPage : List (Option String) :=
  [ some ("var ytInitialData = " ++ firstPayloadText ++ ";"),
    some ("var ytInitialData = " ++ secondPayloadText ++ ";") ]

/-- A blank query in the sense of the specification: missing, the empty
string, or a string of white space only. -/
def isBlankQuery : Option QueryValue → Bool
  | none => true
  | some (.text s) => s.data.all jsIsWhiteSpace
  | some _ => false

/-- The seven invocations the handler makes for a query and a location. -/
def allFetcherCalls (query : QueryValue) (location : Option QueryValue) : List FetcherCall :=
  [.scrapeYouTube query, .scrapeTikTok query, .scrapeInstagram query, .scrapeTwitch query,
    .scrapeNews "cnn" query location, .scrapeNews "fox" query location,
    .scrapeNews "bbc" query location]

/-- The source keys of the two parts of a payload, `none` for an error
payload. -/
def bundleKeys : ResponseBody → Option (List String × List String)
  | .error _ => none
  | .results social news => some (social.map Prod.fst, news.map Prod.fst)

/-! ### The quota-filling description, with the checks of the loop -/

/-- The candidate of a container as the loop builds it: it is kept when it
has a title and a link and its trimmed title is longer than 10 code units,
and the record is then the one `recordOf` builds. -/
def candidateRecord (baseUrl source : String) (c : Container) : Option ContentRecord :=
  match c.href with
  | none => none
  | some href =>
    if jsTruthyStr (jsTrim c.titleText) && jsTruthyStr href &&
        decide (jsLength (jsTrim c.titleText) > 10) then
      some (recordOf baseUrl source c href)
    else none

/-- The first 8 matching containers of each strategy, in catalog order. -/
def scannedContainers (page : Page) (sels : List Selector) : List Container :=
  sels.flatMap (fun sel => (page sel).take 8)

/-- One step of dropping repeats: a candidate whose title or url equals that
of a record kept earlier is dropped, any other is kept after them. -/
def keepIfNew (kept : List ContentRecord) (r : ContentRecord) : List ContentRecord :=
  if kept.any (fun k => k.title == r.title || k.url == r.url) then kept else kept ++ [r]

/-- Dropping each candidate whose title or url equals that of an earlier kept
record, starting from the records kept so far. -/
def dropRepeats (kept : List ContentRecord) (candidates : List ContentRecord) :
    List ContentRecord :=
  candidates.foldl keepIfNew kept

/-- The description of the claim, read with the candidates of the loop: the
first 5 records of the candidates of the scanned containers once repeats are
dropped. -/
def quotaFilling (page : Page) (baseUrl source : String) (sels : List Selector) :
    List ContentRecord :=
  (dropRepeats [] ((scannedContainers page sels).filterMap (candidateRecord baseUrl source))).take 5

/-- One step of the loop seen on candidates: nothing is added to five
records. -/
def keepIfRoom (kept : List ContentRecord) (r : ContentRecord) : List ContentRecord :=
  if kept.length ≥ 5 then kept else keepIfNew kept r

/-- A page on which the first `cnn` strategy matches six acceptable
containers and the second strategy one more. -/
def fullFirstStrategyPage : Page := fun sel =>
  if sel.article = ".container__item" then
    [ ⟨"First headline of the day", some "/story/1", none, none, none⟩,
      ⟨"Second headline of the day", some "/story/2", none, none, none⟩,
      ⟨"Third headline of the day", some "/story/3", none, none, none⟩,
      ⟨"Fourth headline of the day", some "/story/4", none, none, none⟩,
      ⟨"Fifth headline of the day", some "/story/5", none, none, none⟩,
      ⟨"Sixth headline of the day", some "/story/6", none, none, none⟩ ]
  else if sel.article = ".card" then
    [ ⟨"A story of the second strategy", some "/card/1", none, none, none⟩ ]
  else []

/-! ### The quota-filling description, in the words of the specification -/

/-- Link normalization in the words of the specification: "if not already
absolute, prefix with the outlet's base URL, avoiding a doubled path
separator" (one `/` stands between the base and the link without its leading
separators). -/
def specAbsolutize (baseUrl link : String) : String :=
  if isAbsoluteUrl link then link
  else baseUrl ++ "/" ++ ⟨link.data.dropWhile (fun ch => ch == '/')⟩

/-- Thumbnail normalization in the words of the specification: "same
absolutization rule, except data-URI thumbnails or any thumbnail reference
value longer than 500 characters is discarded and replaced with empty". -/
def specThumbnail (baseUrl : String) (raw : Option String) : String :=
  match raw with
  | none => ""
  | some t =>
    if !jsTruthyStr t then ""
    else if jsStartsWith t "data:" || decide (jsLength t > 500) then ""
    else specAbsolutize baseUrl t

/-- The candidate of a container in the words of the specification: a title
is rejected "if shorter than 10 characters", and records "are rejected if
title or link is missing". -/
def specCandidateRecord (baseUrl source : String) (c : Container) : Option ContentRecord :=
  match c.href with
  | none => none
  | some href =>
    if jsTruthyStr (jsTrim c.titleText) && jsTruthyStr href &&
        decide (jsLength (jsTrim c.titleText) ≥ 10) then
      some ⟨jsTrim c.titleText, specAbsolutize baseUrl href,
        specThumbnail baseUrl (rawThumbnail c), toUpperCase source⟩
    else none

/-- The description of the claim with the candidates of the specification. -/
def specQuotaFilling (page : Page) (baseUrl source : String) (sels : List Selector) :
    List ContentRecord :=
  (dropRepeats []
    ((scannedContainers page sels).filterMap (specCandidateRecord baseUrl source))).take 5

/-- A page whose first `cnn` strategy matches one container, the title of
which has exactly 10 characters. -/
def tenCharTitlePage : Page := fun sel =>
  if sel.article = ".container__item" then
    [ ⟨"0123456789", some "/a/b", none, none, none⟩ ]
  else []

/-! ## Properties of the extraction loop -/

/-- What the deduplication test guarantees when it answers "no". -/
theorem isDuplicate_false {results : List ContentRecord} {title link : String}
    (h : isDuplicate results title link = false) :
    ∀ r ∈ results, r.title ≠ title ∧ r.url ≠ link := by
  intro r hr
  unfold isDuplicate at h
  rw [List.any_eq_false] at h
  have := h r hr
  simpa [not_or] using this

/-- The callback either leaves the list alone or appends the record of an
accepted container. -/
theorem processElem_cases (baseUrl source : String) (results : List ContentRecord)
    (c : Container) :
    processElem baseUrl source results c = results ∨
    ∃ href, Accepts baseUrl results c href ∧
      processElem baseUrl source results c = results ++ [recordOf baseUrl source c href] := by
  unfold processElem
  by_cases hlen : results.length ≥ 5
  · simp [hlen]
  · rw [if_neg hlen]
    cases hh : c.href with
    | none => simp
    | some href =>
      simp only []
      by_cases hg : (jsTruthyStr (jsTrim c.titleText) && jsTruthyStr href &&
          decide (jsLength (jsTrim c.titleText) > 10)) = true
      · rw [if_pos hg]
        by_cases hd : isDuplicate results (jsTrim c.titleText) (absolutizeLink baseUrl href) = true
        · simp [hd]
        · right
          simp only [Bool.not_eq_true] at hd
          refine ⟨href, ⟨by omega, hh, ?_, ?_, ?_, hd⟩, ?_⟩
          · simp only [Bool.and_eq_true, decide_eq_true_eq] at hg; exact hg.1.1
          · simp only [Bool.and_eq_true, decide_eq_true_eq] at hg; exact hg.1.2
          · simp only [Bool.and_eq_true, decide_eq_true_eq] at hg; exact hg.2
          · simp [hd, recordOf]
      · rw [if_neg hg]; exact Or.inl rfl

/-- A property kept by the callback on the scanned containers is kept by
the scan. -/
theorem scan_preserves_mem (P : List ContentRecord → Prop) (baseUrl source : String)
    (cs : List Container)
    (hstep : ∀ c ∈ cs, ∀ results, P results → P (processElem baseUrl source results c)) :
    ∀ results, P results → P (cs.foldl (processElem baseUrl source) results) := by
  induction cs with
  | nil => intro results h; simpa using h
  | cons c cs ihc =>
    intro results h
    simp only [List.foldl_cons]
    exact ihc (fun c' hc' => hstep c' (List.mem_cons_of_mem _ hc')) _
      (hstep c (List.mem_cons_self _ _) results h)

/-- A property kept by the callback on the first eight matches of every
strategy is kept by the whole loop. -/
theorem extractLoop_preserves_mem (P : List ContentRecord → Prop) (page : Page)
    (baseUrl source : String) (sels : List Selector)
    (hstep : ∀ sel ∈ sels, ∀ c ∈ (page sel).take 8, ∀ results,
      P results → P (processElem baseUrl source results c)) :
    ∀ results, P results → P (extractLoop page baseUrl source sels results) := by
  induction sels with
  | nil => intro results h; simpa [extractLoop] using h
  | cons sel rest ih =>
    intro results h
    unfold extractLoop
    split
    · exact h
    · exact ih (fun s hs => hstep s (List.mem_cons_of_mem _ hs)) _
        (scan_preserves_mem P baseUrl source _ (hstep sel (List.mem_cons_self _ _)) results h)

/-- A property kept by every run of the callback is kept by the whole loop. -/
theorem extractLoop_preserves (P : List ContentRecord → Prop) (page : Page)
    (baseUrl source : String)
    (hstep : ∀ results c, P results → P (processElem baseUrl source results c))
    (sels : List Selector) :
    ∀ results, P results → P (extractLoop page baseUrl source sels results) :=
  extractLoop_preserves_mem P page baseUrl source sels
    (fun _ _ c _ results h => hstep results c h)

/-- Provenance: every record of the loop was built, by `recordOf`, from one
of the first eight containers of a strategy, one that has a non-empty link and
a trimmed title longer than 10 code units. -/
theorem extractLoop_provenance (page : Page) (baseUrl source : String)
    (sels : List Selector) :
    ∀ r ∈ extractLoop page baseUrl source sels [],
      ∃ sel ∈ sels, ∃ c ∈ (page sel).take 8, ∃ href,
        c.href = some href ∧ jsTruthyStr href = true ∧
        jsLength (jsTrim c.titleText) > 10 ∧ r = recordOf baseUrl source c href := by
  refine extractLoop_preserves_mem
    (fun l => ∀ r ∈ l, ∃ sel ∈ sels, ∃ c ∈ (page sel).take 8, ∃ href,
      c.href = some href ∧ jsTruthyStr href = true ∧
      jsLength (jsTrim c.titleText) > 10 ∧ r = recordOf baseUrl source c href)
    page baseUrl source sels ?_ [] (by simp)
  intro sel hsel c hc results ih r hr
  rcases processElem_cases baseUrl source results c with h | ⟨href, hacc, h⟩
  · rw [h] at hr; exact ih r hr
  · rw [h] at hr
    rcases List.mem_append.1 hr with hr | hr
    · exact ih r hr
    · simp only [List.mem_singleton] at hr
      exact ⟨sel, hsel, c, hc, href, hacc.2.1, hacc.2.2.2.1, hacc.2.2.2.2.1, hr⟩

/-- The empty list satisfies the dedup invariant. -/
theorem dedup_nil : Dedup [] := ⟨by simp [TitlesDistinct], by simp [UrlsDistinct]⟩

/-- The loop keeps the dedup invariant, for any strategy list. -/
theorem extractLoop_dedup_from (page : Page) (baseUrl source : String)
    (sels : List Selector) (results : List ContentRecord) (h : Dedup results) :
    Dedup (extractLoop page baseUrl source sels results) := by
  refine extractLoop_preserves Dedup page baseUrl source ?_ sels results h
  intro results c ⟨ht, hu⟩
  rcases processElem_cases baseUrl source results c with h | ⟨href, hacc, h⟩
  · rw [h]; exact ⟨ht, hu⟩
  · rw [h]
    have hd := isDuplicate_false hacc.2.2.2.2.2
    unfold Dedup TitlesDistinct UrlsDistinct at *
    simp only [List.map_append, List.map_cons, List.map_nil]
    constructor
    · rw [List.nodup_append]
      refine ⟨ht, by simp, ?_⟩
      intro a ha hb
      simp only [List.mem_singleton] at hb
      obtain ⟨r, hr, rfl⟩ := List.mem_map.1 ha
      exact (hd r hr).1 hb
    · rw [List.nodup_append]
      refine ⟨hu, by simp, ?_⟩
      intro a ha hb
      simp only [List.mem_singleton] at hb
      obtain ⟨r, hr, rfl⟩ := List.mem_map.1 ha
      exact (hd r hr).2 hb

/-- C1. Dedup invariant of the extraction loop: for every page, base URL and
source key (the three outlets included), the list of records accumulated by
the extraction loop of `scrapeNews` has no two distinct positions with the
same title and no two distinct positions with the same url. -/
theorem extractNews_dedup (page : Page) (baseUrl source : String) :
    Dedup (extractNews page baseUrl source) :=
  extractLoop_dedup_from page baseUrl source (selectors source) [] dedup_nil

/-! ## The title threshold -/

/-- The empty string has length zero. -/
theorem jsTruthyStr_of_length_pos {s : String} (h : 0 < jsLength s) :
    jsTruthyStr s = true := by
  unfold jsTruthyStr
  rw [bne_iff_ne]
  intro e
  rw [e] at h
  exact absurd h (by decide)

/-- C3 fails as stated: a container with a link whose trimmed title has
exactly 10 characters, with no record accepted yet (so no clash and fewer
than 5 collected), is rejected. -/
theorem title_threshold_counterexample :
    jsLength (jsTrim "0123456789") = 10 ∧
    processElem "https://www.cnn.com" "cnn" []
      ⟨"0123456789", some "/a/b", none, none, none⟩ = [] := by
  decide

/-- C3, amended. While fewer than 5 records have been collected, a container
with a non-empty link and no title or url clash with the accepted records is
accepted exactly when its trimmed title is longer than 10 code units: then its
record is appended, and otherwise (10 or fewer) the list is left unchanged. -/
theorem title_threshold (baseUrl source : String) (results : List ContentRecord)
    (c : Container) (href : String)
    (hlen : results.length < 5) (hhref : c.href = some href) (hne : href ≠ "")
    (hdup : isDuplicate results (jsTrim c.titleText) (absolutizeLink baseUrl href) = false) :
    processElem baseUrl source results c =
      if jsLength (jsTrim c.titleText) > 10 then results ++ [recordOf baseUrl source c href]
      else results := by
  have hl : ¬ results.length ≥ 5 := by omega
  have hh : jsTruthyStr href = true := by
    unfold jsTruthyStr; rw [bne_iff_ne]; exact hne
  unfold processElem
  rw [if_neg hl, hhref]
  simp only []
  by_cases ht : jsLength (jsTrim c.titleText) > 10
  · have htt : jsTruthyStr (jsTrim c.titleText) = true :=
      jsTruthyStr_of_length_pos (by omega)
    simp [ht, htt, hh, hdup, recordOf]
  · simp [ht]

/-- Witness of `title_threshold`: an 11-character title is accepted. -/
theorem title_threshold_witness :
    processElem "https://www.cnn.com" "cnn" []
      ⟨"Hello world", some "/a/b", none, none, none⟩ =
      [⟨"Hello world", "https://www.cnn.com/a/b", "", "CNN"⟩] :=
  (title_threshold "https://www.cnn.com" "cnn" []
    ⟨"Hello world", some "/a/b", none, none, none⟩ "/a/b"
    (by decide) rfl (by decide) (by decide)).trans (by decide)

/-! ## Thumbnail filtering -/

/-- The length of a concatenation. -/
theorem jsLength_append (s t : String) : jsLength (s ++ t) = jsLength s + jsLength t := by
  simp [jsLength, String.data_append]

/-- An occurrence survives a longer left context. -/
theorem includesAux_append_left (pat a s : List Char) (h : includesAux pat s = true) :
    includesAux pat (a ++ s) = true := by
  induction a with
  | nil => simpa using h
  | cons x a ih => simp [includesAux, ih]

/-- An occurrence survives prefixing the string. -/
theorem jsIncludes_append_left (a s pat : String) (h : jsIncludes s pat = true) :
    jsIncludes (a ++ s) pat = true := by
  unfold jsIncludes at *
  rw [String.data_append]
  exact includesAux_append_left _ _ _ h

/-- A raw thumbnail reference that contains `data:image` or is longer than
500 code units yields the empty thumbnail. -/
theorem recordOf_thumbnail_of_bad (baseUrl source : String) (c : Container) (href : String)
    (h : badRawThumbnail c = true) : (recordOf baseUrl source c href).thumbnail = "" := by
  unfold badRawThumbnail at h
  unfold recordOf
  simp only []
  cases hr : rawThumbnail c with
  | none => rw [hr] at h; simp at h
  | some t =>
    rw [hr] at h
    simp only [] at h
    obtain ⟨t', ht', hbad⟩ : ∃ t', absolutizeThumbnail baseUrl (some t) = some t' ∧
        (jsIncludes t' "data:image" || decide (jsLength t' > 500)) = true := by
      unfold absolutizeThumbnail
      simp only []
      split_ifs with h1 h2
      · refine ⟨_, rfl, ?_⟩
        rcases Bool.or_eq_true _ _ ▸ h with hi | hl
        · simp [jsIncludes_append_left _ _ _ hi]
        · simp only [decide_eq_true_eq] at hl
          simp only [jsLength_append, Bool.or_eq_true, decide_eq_true_eq]
          right; omega
      · refine ⟨_, rfl, ?_⟩
        rcases Bool.or_eq_true _ _ ▸ h with hi | hl
        · simp [jsIncludes_append_left _ _ _ hi]
        · simp only [decide_eq_true_eq] at hl
          simp only [jsLength_append, Bool.or_eq_true, decide_eq_true_eq]
          right; omega
      · exact ⟨t, rfl, h⟩
    rw [ht']
    unfold filterThumbnail
    simp only [hbad, Bool.and_true]
    by_cases htr : jsTruthyStr t' = true
    · simp [htr, thumbnailOrEmpty]
    · have : t' = "" := by
        unfold jsTruthyStr at htr
        simpa using htr
      simp [this, thumbnailOrEmpty]

/-- C4 fails as stated: the only container of `dataUriPage` has the raw
thumbnail reference `data:;base64,R0lGOD`, which begins with `data:`, and its
record is accepted with that reference as thumbnail, not the empty string. -/
theorem thumbnail_filtering_counterexample :
    jsStartsWith "data:;base64,R0lGOD" "data:" = true ∧
    extractNews dataUriPage "https://www.cnn.com" "cnn" =
      [⟨"Hello world news", "https://www.cnn.com/a/b", "data:;base64,R0lGOD", "CNN"⟩] := by
  decide

/-- C4, amended. Every record accepted by the extraction loop of `scrapeNews`
was built from one of the first eight containers of a strategy, and if the raw
thumbnail reference of that container (first non-empty of `src`, `data-src`,
`data-lazy-src`) contains the text `data:image` or is longer than 500 code
units, the record's thumbnail is the empty string. -/
theorem thumbnail_filtering (page : Page) (baseUrl source : String)
    (r : ContentRecord) (hr : r ∈ extractNews page baseUrl source) :
    ∃ sel ∈ selectors source, ∃ c ∈ (page sel).take 8, ∃ href,
      c.href = some href ∧ r = recordOf baseUrl source c href ∧
      (badRawThumbnail c = true → r.thumbnail = "") := by
  obtain ⟨sel, hsel, c, hc, href, hh, -, -, hrec⟩ :=
    extractLoop_provenance page baseUrl source (selectors source) r hr
  refine ⟨sel, hsel, c, hc, href, hh, hrec, ?_⟩
  intro hbad
  rw [hrec]
  exact recordOf_thumbnail_of_bad baseUrl source c href hbad

/-- Witness of `thumbnail_filtering`: the first record extracted from
`samplePage` comes from a container whose image is a `data:image` URI. -/
theorem thumbnail_filtering_witness :
    (⟨"Hello world news", "https://www.cnn.com/a/b", "", "CNN"⟩ : ContentRecord) ∈
      extractNews samplePage "https://www.cnn.com" "cnn" ∧
    ∃ sel ∈ selectors "cnn", ∃ c ∈ (samplePage sel).take 8, ∃ href,
      c.href = some href ∧
      (⟨"Hello world news", "https://www.cnn.com/a/b", "", "CNN"⟩ : ContentRecord) =
        recordOf "https://www.cnn.com" "cnn" c href ∧
      (badRawThumbnail c = true →
        (⟨"Hello world news", "https://www.cnn.com/a/b", "", "CNN"⟩ : ContentRecord).thumbnail
          = "") :=
  ⟨by decide, thumbnail_filtering samplePage "https://www.cnn.com" "cnn" _ (by decide)⟩

/-! ## Link absolutization -/

/-- A string that begins with `/` is that character followed by the rest. -/
theorem data_of_startsWith_slash {s : String} (h : jsStartsWith s "/" = true) :
    s.data = '/' :: s.data.drop 1 := by
  unfold jsStartsWith at h
  cases hs : s.data with
  | nil => rw [hs] at h; simp [List.isPrefixOf] at h
  | cons x xs =>
    rw [hs] at h
    have : x = '/' := by
      simp [List.isPrefixOf] at h
      exact h.symm
    simp [this]

/-- Putting the leading `/` back. -/
theorem slash_dropLeadingSlash {s : String} (h : jsStartsWith s "/" = true) :
    "/" ++ dropLeadingSlash s = s := by
  apply String.ext
  rw [String.data_append]
  unfold dropLeadingSlash
  rw [if_pos h]
  conv_rhs => rw [data_of_startsWith_slash h]
  rfl

/-- The code's two relative branches are one: the base, one `/`, and the
link without its leading `/`. -/
theorem absolutizeLink_eq (baseUrl link : String) :
    absolutizeLink baseUrl link =
      if jsStartsWith link "http" then link
      else baseUrl ++ "/" ++ dropLeadingSlash link := by
  unfold absolutizeLink
  by_cases h : jsStartsWith link "http" = true
  · simp [h]
  · simp only [h, Bool.not_eq_true] at *
    simp only [h, Bool.not_false, if_true, Bool.false_eq_true, if_false]
    by_cases hs : jsStartsWith link "/" = true
    · rw [if_pos hs, String.append_assoc, slash_dropLeadingSlash hs]
    · rw [if_neg hs]
      unfold dropLeadingSlash
      rw [if_neg hs]

/-- A link that begins with `http://` or `https://` begins with `http`. -/
theorem startsWith_http_of_isAbsoluteUrl {s : String} (h : isAbsoluteUrl s = true) :
    jsStartsWith s "http" = true := by
  unfold isAbsoluteUrl at h
  unfold jsStartsWith at *
  rw [Bool.or_eq_true] at h
  rcases h with h | h
  · rw [List.isPrefixOf_iff_prefix] at *
    exact List.IsPrefix.trans (by decide : "http".data <+: "http://".data) h
  · rw [List.isPrefixOf_iff_prefix] at *
    exact List.IsPrefix.trans (by decide : "http".data <+: "https://".data) h

/-- C7, evaluated at the failing input. The link `http-errors.html` is not
absolute (it begins with neither `http://` nor `https://`), yet the record
accepted for it under the base URL `https://www.cnn.com` carries the link
unchanged as url, not `https://www.cnn.com/http-errors.html`. -/
theorem link_absolutization_failing_input :
    isAbsoluteUrl "http-errors.html" = false ∧
    processElem "https://www.cnn.com" "cnn" []
      ⟨"Hello world news", some "http-errors.html", none, none, none⟩ =
      [⟨"Hello world news", "http-errors.html", "", "CNN"⟩] := by
  decide

/-- What the statement "Make link absolute" computes, for every base URL `B`
and link `L`: `L` itself when it begins with `http`, else `B`, one `/`, and
`L` without its leading `/` if it has one; a second `/` follows only when `L`
begins with `//`. -/
theorem link_absolutization (B source : String) (c : Container) (L : String) :
    (recordOf B source c L).url =
      (if jsStartsWith L "http" then L else B ++ "/" ++ dropLeadingSlash L) ∧
    (isAbsoluteUrl L = false ∨ (recordOf B source c L).url = L) ∧
    (jsStartsWith L "//" = true ∨ jsStartsWith (dropLeadingSlash L) "/" = false) ∧
    absolutizeLink "https://x.com" "/a/b" = "https://x.com/a/b" ∧
    absolutizeLink "https://x.com" "a/b" = "https://x.com/a/b" := by
  refine ⟨absolutizeLink_eq B L, ?_, ?_, by decide, by decide⟩
  · by_cases h : isAbsoluteUrl L = true
    · right
      show absolutizeLink B L = L
      rw [absolutizeLink_eq, if_pos (startsWith_http_of_isAbsoluteUrl h)]
    · left; simpa using h
  · by_cases hs : jsStartsWith L "/" = true
    · have hd := data_of_startsWith_slash hs
      by_cases h2 : jsStartsWith (dropLeadingSlash L) "/" = true
      · left
        have hd2 := data_of_startsWith_slash h2
        unfold dropLeadingSlash at hd2
        rw [if_pos hs] at hd2
        simp only [] at hd2
        unfold jsStartsWith
        rw [hd, hd2]
        simp [List.isPrefixOf]
      · right; simpa using h2
    · right
      unfold dropLeadingSlash
      rw [if_neg hs]
      simpa using hs

/-- A link that begins with `//` is appended to the base URL as it is, which
leaves two separators after the base. -/
theorem absolutizeLink_double_slash :
    absolutizeLink "https://www.cnn.com" "//cdn.cnn.com/x" =
      "https://www.cnn.com//cdn.cnn.com/x" := by
  decide

/-! ## Caps -/

/-- The loop never holds more than five records. -/
theorem extractLoop_length_le (page : Page) (baseUrl source : String)
    (sels : List Selector) (results : List ContentRecord) (h : results.length ≤ 5) :
    (extractLoop page baseUrl source sels results).length ≤ 5 := by
  refine extractLoop_preserves (fun l => l.length ≤ 5) page baseUrl source ?_ sels results h
  intro results c hl
  rcases processElem_cases baseUrl source results c with h | ⟨href, hacc, h⟩
  · rw [h]; exact hl
  · rw [h]
    have := hacc.1
    simp only [List.length_append, List.length_singleton]
    omega

/-- The fallback list has five records for an outlet and none otherwise. -/
theorem getMockNewsData_length (source query location : String) :
    (getMockNewsData source query location).length =
      if source = "cnn" ∨ source = "fox" ∨ source = "bbc" then 5 else 0 := by
  unfold getMockNewsData baseData
  split_ifs <;> simp_all

/-! ## Distinct titles in the templated lists -/

/-- Strings with different counts of some character are different. -/
theorem ne_of_countChar (c : Char) {s t : String}
    (h : countChar c s ≠ countChar c t) : s ≠ t :=
  fun e => h (congrArg (countChar c) e)

/-- The last character of a concatenation. -/
theorem lastChar_append (s t : String) :
    lastChar (s ++ t) = (lastChar t).or (lastChar s) := by
  simp [lastChar, String.data_append, List.getLast?_append]

/-- Strings with different last characters are different. -/
theorem ne_of_lastChar {s t : String} (h : lastChar s ≠ lastChar t) : s ≠ t :=
  fun e => h (congrArg lastChar e)

/-- Three pairwise different values form a list without repetition. -/
theorem nodup_three {α : Type} {a b c : α} (hab : a ≠ b) (hac : a ≠ c) (hbc : b ≠ c) :
    [a, b, c].Nodup := by
  simp [*]

/-- Five pairwise different values form a list without repetition. -/
theorem nodup_five {α : Type} {a b c d e : α} (hab : a ≠ b) (hac : a ≠ c) (had : a ≠ d)
    (hae : a ≠ e) (hbc : b ≠ c) (hbd : b ≠ d) (hbe : b ≠ e) (hcd : c ≠ d) (hce : c ≠ e)
    (hde : d ≠ e) : [a, b, c, d, e].Nodup := by
  simp [*]

/-- Occurrences of a character in a concatenation. -/
theorem countChar_append (c : Char) (s t : String) :
    countChar c (s ++ t) = countChar c s + countChar c t := by
  simp [countChar, String.data_append, List.count_append]

/-- The title templates of the `cnn` list are pairwise distinct, whatever
is interpolated. -/
theorem cnn_titles_nodup (q loc : String) :
    ["Breaking: " ++ q ++ " developments" ++ loc,
      "Analysis: Understanding " ++ q,
      q ++ " impact on communities",
      "Latest updates on " ++ q,
      "Experts weigh in on " ++ q].Nodup := by
  apply nodup_five
  · apply ne_of_countChar 'B'
    simp only [countChar_append]
    have e1 : countChar 'B' "Breaking: " = 1 := by decide
    have e2 : countChar 'B' " developments" = 0 := by decide
    have e3 : countChar 'B' "Analysis: Understanding " = 0 := by decide
    omega
  · apply ne_of_countChar ':'
    simp only [countChar_append]
    have e1 : countChar ':' "Breaking: " = 1 := by decide
    have e2 : countChar ':' " developments" = 0 := by decide
    have e3 : countChar ':' " impact on communities" = 0 := by decide
    omega
  · apply ne_of_countChar ':'
    simp only [countChar_append]
    have e1 : countChar ':' "Breaking: " = 1 := by decide
    have e2 : countChar ':' " developments" = 0 := by decide
    have e3 : countChar ':' "Latest updates on " = 0 := by decide
    omega
  · apply ne_of_countChar ':'
    simp only [countChar_append]
    have e1 : countChar ':' "Breaking: " = 1 := by decide
    have e2 : countChar ':' " developments" = 0 := by decide
    have e3 : countChar ':' "Experts weigh in on " = 0 := by decide
    omega
  · apply ne_of_countChar ':'
    simp only [countChar_append]
    have e1 : countChar ':' "Analysis: Understanding " = 1 := by decide
    have e2 : countChar ':' " impact on communities" = 0 := by decide
    omega
  · apply ne_of_countChar ':'
    simp only [countChar_append]
    have e1 : countChar ':' "Analysis: Understanding " = 1 := by decide
    have e2 : countChar ':' "Latest updates on " = 0 := by decide
    omega
  · apply ne_of_countChar ':'
    simp only [countChar_append]
    have e1 : countChar ':' "Analysis: Understanding " = 1 := by decide
    have e2 : countChar ':' "Experts weigh in on " = 0 := by decide
    omega
  · apply ne_of_countChar 'L'
    simp only [countChar_append]
    have e1 : countChar 'L' " impact on communities" = 0 := by decide
    have e2 : countChar 'L' "Latest updates on " = 1 := by decide
    omega
  · apply ne_of_countChar 'E'
    simp only [countChar_append]
    have e1 : countChar 'E' " impact on communities" = 0 := by decide
    have e2 : countChar 'E' "Experts weigh in on " = 1 := by decide
    omega
  · apply ne_of_countChar 'E'
    simp only [countChar_append]
    have e1 : countChar 'E' "Latest updates on " = 0 := by decide
    have e2 : countChar 'E' "Experts weigh in on " = 1 := by decide
    omega

/-- The title templates of the `fox` list are pairwise distinct, whatever
is interpolated. -/
theorem fox_titles_nodup (q loc : String) :
    [q ++ " situation unfolds" ++ loc,
      "What you need to know about " ++ q,
      q ++ ": Key takeaways",
      "Breaking coverage: " ++ q,
      q ++ " update: Full story"].Nodup := by
  apply nodup_five
  · apply ne_of_countChar 'f'
    simp only [countChar_append]
    have e1 : countChar 'f' " situation unfolds" = 1 := by decide
    have e2 : countChar 'f' "What you need to know about " = 0 := by decide
    omega
  · apply ne_of_countChar 'd'
    simp only [countChar_append]
    have e1 : countChar 'd' " situation unfolds" = 1 := by decide
    have e2 : countChar 'd' ": Key takeaways" = 0 := by decide
    omega
  · apply ne_of_countChar 'd'
    simp only [countChar_append]
    have e1 : countChar 'd' " situation unfolds" = 1 := by decide
    have e2 : countChar 'd' "Breaking coverage: " = 0 := by decide
    omega
  · apply ne_of_countChar 'f'
    simp only [countChar_append]
    have e1 : countChar 'f' " situation unfolds" = 1 := by decide
    have e2 : countChar 'f' " update: Full story" = 0 := by decide
    omega
  · apply ne_of_countChar ':'
    simp only [countChar_append]
    have e1 : countChar ':' "What you need to know about " = 0 := by decide
    have e2 : countChar ':' ": Key takeaways" = 1 := by decide
    omega
  · apply ne_of_countChar ':'
    simp only [countChar_append]
    have e1 : countChar ':' "What you need to know about " = 0 := by decide
    have e2 : countChar ':' "Breaking coverage: " = 1 := by decide
    omega
  · apply ne_of_countChar ':'
    simp only [countChar_append]
    have e1 : countChar ':' "What you need to know about " = 0 := by decide
    have e2 : countChar ':' " update: Full story" = 1 := by decide
    omega
  · apply ne_of_countChar 'B'
    simp only [countChar_append]
    have e1 : countChar 'B' ": Key takeaways" = 0 := by decide
    have e2 : countChar 'B' "Breaking coverage: " = 1 := by decide
    omega
  · apply ne_of_countChar 'F'
    simp only [countChar_append]
    have e1 : countChar 'F' ": Key takeaways" = 0 := by decide
    have e2 : countChar 'F' " update: Full story" = 1 := by decide
    omega
  · apply ne_of_countChar 'B'
    simp only [countChar_append]
    have e1 : countChar 'B' "Breaking coverage: " = 1 := by decide
    have e2 : countChar 'B' " update: Full story" = 0 := by decide
    omega

/-- The title templates of the `bbc` list are pairwise distinct, whatever
is interpolated. -/
theorem bbc_titles_nodup (q loc : String) :
    [q ++ ": What's happening" ++ loc,
      q ++ " explained",
      "The story behind " ++ q,
      q ++ ": Latest developments",
      "In-depth: " ++ q ++ " coverage"].Nodup := by
  apply nodup_five
  · apply ne_of_countChar ':'
    simp only [countChar_append]
    have e1 : countChar ':' ": What's happening" = 1 := by decide
    have e2 : countChar ':' " explained" = 0 := by decide
    omega
  · apply ne_of_countChar ':'
    simp only [countChar_append]
    have e1 : countChar ':' ": What's happening" = 1 := by decide
    have e2 : countChar ':' "The story behind " = 0 := by decide
    omega
  · apply ne_of_countChar 'W'
    simp only [countChar_append]
    have e1 : countChar 'W' ": What's happening" = 1 := by decide
    have e2 : countChar 'W' ": Latest developments" = 0 := by decide
    omega
  · apply ne_of_countChar 'W'
    simp only [countChar_append]
    have e1 : countChar 'W' ": What's happening" = 1 := by decide
    have e2 : countChar 'W' "In-depth: " = 0 := by decide
    have e3 : countChar 'W' " coverage" = 0 := by decide
    omega
  · apply ne_of_countChar 'T'
    simp only [countChar_append]
    have e1 : countChar 'T' " explained" = 0 := by decide
    have e2 : countChar 'T' "The story behind " = 1 := by decide
    omega
  · apply ne_of_countChar ':'
    simp only [countChar_append]
    have e1 : countChar ':' " explained" = 0 := by decide
    have e2 : countChar ':' ": Latest developments" = 1 := by decide
    omega
  · apply ne_of_countChar '-'
    simp only [countChar_append]
    have e1 : countChar '-' " explained" = 0 := by decide
    have e2 : countChar '-' "In-depth: " = 1 := by decide
    have e3 : countChar '-' " coverage" = 0 := by decide
    omega
  · apply ne_of_countChar ':'
    simp only [countChar_append]
    have e1 : countChar ':' "The story behind " = 0 := by decide
    have e2 : countChar ':' ": Latest developments" = 1 := by decide
    omega
  · apply ne_of_countChar '-'
    simp only [countChar_append]
    have e1 : countChar '-' "The story behind " = 0 := by decide
    have e2 : countChar '-' "In-depth: " = 1 := by decide
    have e3 : countChar '-' " coverage" = 0 := by decide
    omega
  · apply ne_of_countChar '-'
    simp only [countChar_append]
    have e1 : countChar '-' ": Latest developments" = 0 := by decide
    have e2 : countChar '-' "In-depth: " = 1 := by decide
    have e3 : countChar '-' " coverage" = 0 := by decide
    omega

/-- The title templates of the `tiktok` list are pairwise distinct, whatever
is interpolated. -/
theorem tiktok_titles_nodup (q : String) :
    [q ++ " trending on TikTok",
      q ++ " viral content",
      "Latest " ++ q ++ " videos"].Nodup := by
  apply nodup_three
  · apply ne_of_countChar 'T'
    simp only [countChar_append]
    have e1 : countChar 'T' " trending on TikTok" = 2 := by decide
    have e2 : countChar 'T' " viral content" = 0 := by decide
    omega
  · apply ne_of_countChar 'L'
    simp only [countChar_append]
    have e1 : countChar 'L' " trending on TikTok" = 0 := by decide
    have e2 : countChar 'L' "Latest " = 1 := by decide
    have e3 : countChar 'L' " videos" = 0 := by decide
    omega
  · apply ne_of_countChar 'L'
    simp only [countChar_append]
    have e1 : countChar 'L' " viral content" = 0 := by decide
    have e2 : countChar 'L' "Latest " = 1 := by decide
    have e3 : countChar 'L' " videos" = 0 := by decide
    omega

/-- The title templates of the `twitch` list are pairwise distinct, whatever
is interpolated. -/
theorem twitch_titles_nodup (q : String) :
    [q ++ " live streams on Twitch",
      "Watch " ++ q ++ " gameplay",
      q ++ " streamers and clips"].Nodup := by
  apply nodup_three
  · apply ne_of_countChar 'T'
    simp only [countChar_append]
    have e1 : countChar 'T' " live streams on Twitch" = 1 := by decide
    have e2 : countChar 'T' "Watch " = 0 := by decide
    have e3 : countChar 'T' " gameplay" = 0 := by decide
    omega
  · apply ne_of_countChar 'T'
    simp only [countChar_append]
    have e1 : countChar 'T' " live streams on Twitch" = 1 := by decide
    have e2 : countChar 'T' " streamers and clips" = 0 := by decide
    omega
  · apply ne_of_countChar 'W'
    simp only [countChar_append]
    have e1 : countChar 'W' "Watch " = 1 := by decide
    have e2 : countChar 'W' " gameplay" = 0 := by decide
    have e3 : countChar 'W' " streamers and clips" = 0 := by decide
    omega
/-- The title templates of the `instagram` list are pairwise distinct, whatever
the tag and the query. -/
theorem instagram_titles_nodup (tag q : String) :
    ["#" ++ tag ++ " on Instagram", q ++ " posts and reels",
      "Explore " ++ q ++ " content"].Nodup := by
  have e1 : lastChar " on Instagram" = some 'm' := by decide
  have e2 : lastChar " posts and reels" = some 's' := by decide
  have e3 : lastChar " content" = some 't' := by decide
  apply nodup_three
  · apply ne_of_lastChar
    simp only [lastChar_append, e1, e2]; simp
  · apply ne_of_lastChar
    simp only [lastChar_append, e1, e3]; simp
  · apply ne_of_lastChar
    simp only [lastChar_append, e2, e3]; simp

/-! ## The lists of the bundle -/

/-- The titles of the fallback records are the templates of the outlet. -/
theorem getMockNewsData_titlesDistinct (source query location : String) :
    TitlesDistinct (getMockNewsData source query location) := by
  unfold TitlesDistinct getMockNewsData baseData
  split_ifs
  · simpa using cnn_titles_nodup query (locationText location)
  · simpa using fox_titles_nodup query (locationText location)
  · simpa using bbc_titles_nodup query (locationText location)
  · simp

/-- The three ways `scrapeNews` produces its list: nothing for an unknown
key, the fallback, or a non-empty live extraction on the page returned for the
target url. -/
theorem scrapeNews_cases (rt : JsRuntime) (fetch : String → Option Page)
    (source query location : String) :
    scrapeNews rt fetch source query location = [] ∨
    scrapeNews rt fetch source query location = getMockNewsData source query location ∨
    ∃ page baseUrl url, newsTarget rt source query = some (baseUrl, url) ∧
      fetch url = some page ∧ extractNews page baseUrl source ≠ [] ∧
      scrapeNews rt fetch source query location = extractNews page baseUrl source := by
  unfold scrapeNews liveNews
  cases hnt : newsTarget rt source query with
  | none => simp
  | some p =>
    obtain ⟨baseUrl, url⟩ := p
    cases hf : fetch url with
    | none => simp [hf]
    | some page =>
      by_cases h : (extractNews page baseUrl source).length = 0
      · simp [hf, h]
      · right; right
        refine ⟨page, baseUrl, url, rfl, hf, ?_, by simp [hf, h]⟩
        intro h0; exact h (by simp [h0])

/-- C2 fails as stated: with the query "news" and every request failing, the
TikTok list of the bundle holds the same url at more than one position, so the
bundle-wide dedup invariant does not hold. -/
theorem bundleDedup_counterexample :
    ¬ BundleDedup sampleRuntime (fun _ => none) "news" "" := by
  intro h
  have h1 := h.1.2
  revert h1
  unfold UrlsDistinct
  decide

/-- C2, amended. For every query and location, every per-source list placed
in the bundle (those of `scrapeTikTok`, `scrapeInstagram`, `scrapeTwitch` and
of `scrapeNews`, live or fallback) has no two records sharing a title; and
the list of `scrapeNews` has no two records sharing a url unless it is the
fallback list `getMockNewsData` (whose records all carry the outlet's
homepage, as the records of each social list carry one search url). -/
theorem bundle_dedup_amended (rt : JsRuntime) (fetch : String → Option Page)
    (source query location : String) :
    TitlesDistinct (scrapeTikTok rt query) ∧
    TitlesDistinct (scrapeInstagram rt query) ∧
    TitlesDistinct (scrapeTwitch rt query) ∧
    TitlesDistinct (scrapeNews rt fetch source query location) ∧
    (UrlsDistinct (scrapeNews rt fetch source query location) ∨
      scrapeNews rt fetch source query location = getMockNewsData source query location) := by
  refine ⟨?_, ?_, ?_, ?_, ?_⟩
  · simpa [TitlesDistinct, scrapeTikTok] using tiktok_titles_nodup query
  · simpa [TitlesDistinct, scrapeInstagram] using
      instagram_titles_nodup (instagramTag rt query) query
  · simpa [TitlesDistinct, scrapeTwitch] using twitch_titles_nodup query
  · rcases scrapeNews_cases rt fetch source query location with h | h | ⟨page, baseUrl, _, _, _, _, h⟩
    · rw [h]; simp [TitlesDistinct]
    · rw [h]; exact getMockNewsData_titlesDistinct source query location
    · rw [h]; exact (extractLoop_dedup_from page baseUrl source _ [] dedup_nil).1
  · rcases scrapeNews_cases rt fetch source query location with h | h | ⟨page, baseUrl, _, _, _, _, h⟩
    · left; rw [h]; simp [UrlsDistinct]
    · right; exact h
    · left; rw [h]; exact (extractLoop_dedup_from page baseUrl source _ [] dedup_nil).2

/-- C6. News and social-mock cap: for every source, query, location and
outcome of the request (a page or a failure), the list returned by
`scrapeNews` has at most 5 entries, and for every query the lists returned by
`scrapeTikTok`, `scrapeInstagram` and `scrapeTwitch` have exactly 3 entries. -/
theorem news_and_social_caps (rt : JsRuntime) (fetch : String → Option Page)
    (source query location : String) :
    (scrapeNews rt fetch source query location).length ≤ 5 ∧
    (scrapeTikTok rt query).length = 3 ∧
    (scrapeInstagram rt query).length = 3 ∧
    (scrapeTwitch rt query).length = 3 := by
  refine ⟨?_, rfl, rfl, rfl⟩
  rcases scrapeNews_cases rt fetch source query location with h | h | ⟨page, baseUrl, _, _, _, _, h⟩
  · rw [h]; simp
  · rw [h, getMockNewsData_length]; split_ifs <;> omega
  · rw [h]; exact extractLoop_length_le page baseUrl source _ [] (by simp)

/-! ## The fallback path -/

/-- An outlet key has a request target. -/
theorem newsTarget_of_outlet (rt : JsRuntime) (source query : String) (hs : IsOutlet source) :
    ∃ baseUrl url, newsTarget rt source query = some (baseUrl, url) := by
  unfold newsTarget
  rcases hs with h | h | h <;> subst h <;> simp

/-- The fallback list of an outlet is not empty. -/
theorem getMockNewsData_ne_nil (source query location : String) (hs : IsOutlet source) :
    getMockNewsData source query location ≠ [] := by
  intro h
  have hl := getMockNewsData_length source query location
  have hs' : source = "cnn" ∨ source = "fox" ∨ source = "bbc" := hs
  rw [h, if_pos hs'] at hl
  simp at hl

/-- C8. Fallback on failure or zero yield: for every outlet key, query and
location, `scrapeNews` requests the outlet's target url, and if that request
fails, or the extraction loop accepts no record on the page it returns, the
result is exactly `getMockNewsData source query location`; so the list
returned for an outlet is never empty. -/
theorem fallback_on_failure_or_zero_yield (rt : JsRuntime) (fetch : String → Option Page)
    (source query location : String) (hs : IsOutlet source) :
    ∃ baseUrl url, newsTarget rt source query = some (baseUrl, url) ∧
      (fetch url = none →
        scrapeNews rt fetch source query location = getMockNewsData source query location) ∧
      (∀ page, fetch url = some page → extractNews page baseUrl source = [] →
        scrapeNews rt fetch source query location = getMockNewsData source query location) ∧
      scrapeNews rt fetch source query location ≠ [] := by
  obtain ⟨baseUrl, url, ht⟩ := newsTarget_of_outlet rt source query hs
  refine ⟨baseUrl, url, ht, ?_, ?_, ?_⟩
  · intro hf
    simp [scrapeNews, liveNews, ht, hf]
  · intro page hf he
    simp [scrapeNews, liveNews, ht, hf, he]
  · cases hf : fetch url with
    | none =>
      simp only [scrapeNews, liveNews, ht, hf, List.length_nil, if_true]
      exact getMockNewsData_ne_nil source query location hs
    | some page =>
      by_cases he : (extractNews page baseUrl source).length = 0
      · simp only [scrapeNews, liveNews, ht, hf, he, if_true]
        exact getMockNewsData_ne_nil source query location hs
      · simp only [scrapeNews, liveNews, ht, hf, he, if_false]
        intro h0; exact he (by simp [h0])

/-- Witness of `fallback_on_failure_or_zero_yield`: the key `cnn` with every
request failing. -/
theorem fallback_on_failure_or_zero_yield_witness :
    IsOutlet "cnn" ∧
    scrapeNews sampleRuntime (fun _ => none) "cnn" "news" "" =
      getMockNewsData "cnn" "news" "" := by
  have hs : IsOutlet "cnn" := Or.inl rfl
  obtain ⟨_, url, _, h, _⟩ :=
    fallback_on_failure_or_zero_yield sampleRuntime (fun _ => none) "cnn" "news" "" hs
  exact ⟨hs, h rfl⟩

/-! ## The fallback synthesizer -/

/-- A pattern occurs in any string that has it as a prefix. -/
theorem includesAux_self_append (pat s : List Char) : includesAux pat (pat ++ s) = true := by
  cases h : pat ++ s with
  | nil =>
    have : pat = [] := (List.append_eq_nil.1 h).1
    simp [includesAux, this]
  | cons x xs =>
    unfold includesAux
    rw [← h]
    simp [List.isPrefixOf_iff_prefix]

/-- The query occurs in `a ++ q ++ b`. -/
theorem jsIncludes_mid (a q b : String) : jsIncludes (a ++ q ++ b) q = true := by
  unfold jsIncludes
  rw [String.data_append, String.data_append, List.append_assoc]
  exact includesAux_append_left _ _ _ (includesAux_self_append _ _)

/-- The query occurs in `a ++ q`. -/
theorem jsIncludes_right (a q : String) : jsIncludes (a ++ q) q = true := by
  have := jsIncludes_mid a q ""
  simpa using this

/-- The query occurs in `q ++ b`. -/
theorem jsIncludes_left (q b : String) : jsIncludes (q ++ b) q = true := by
  have := jsIncludes_mid "" q b
  simpa using this

/-- Explicit form of the fallback list of an outlet: the title templates
paired with the fixed fields. -/
theorem getMockNewsData_eq (source query location : String) (hs : IsOutlet source) :
    ∃ titles, baseData source query location = some (mockThumbnail source, titles) ∧
      getMockNewsData source query location =
        titles.map (fun t => ⟨t, mockUrl source, mockThumbnail source, toUpperCase source⟩) := by
  unfold getMockNewsData baseData mockThumbnail
  rcases hs with h | h | h <;> subst h <;> simp

/-- An occurrence survives a longer right context. -/
theorem includesAux_append_right (pat s c : List Char) (h : includesAux pat s = true) :
    includesAux pat (s ++ c) = true := by
  induction s with
  | nil =>
    have hp : pat = [] := by simpa [includesAux] using h
    subst hp
    cases c <;> simp [includesAux]
  | cons x xs ih =>
    simp only [includesAux, Bool.or_eq_true] at h
    simp only [List.cons_append, includesAux, Bool.or_eq_true]
    rcases h with h | h
    · left
      rw [List.isPrefixOf_iff_prefix] at *
      exact h.trans (List.prefix_append (x :: xs) c)
    · right; exact ih h

/-- An occurrence survives appending to the string. -/
theorem jsIncludes_append_right (s c pat : String) (h : jsIncludes s pat = true) :
    jsIncludes (s ++ c) pat = true := by
  unfold jsIncludes at *
  rw [String.data_append]
  exact includesAux_append_right _ _ _ h

/-- Every title template of the table interpolates the query. -/
theorem baseData_titles_include (source query location thumbnail : String)
    (titles : List String)
    (h : baseData source query location = some (thumbnail, titles)) :
    ∀ t ∈ titles, jsIncludes t query = true := by
  unfold baseData at h
  split_ifs at h <;> simp only [Option.some.injEq, Prod.mk.injEq] at h
  all_goals
    obtain ⟨-, rfl⟩ := h
    intro t ht
    simp only [List.mem_cons, List.mem_singleton, List.not_mem_nil, or_false] at ht
    rcases ht with rfl | rfl | rfl | rfl | rfl
    all_goals
      first
      | exact jsIncludes_right _ _
      | exact jsIncludes_left _ _
      | exact jsIncludes_mid _ _ _
      | exact jsIncludes_append_right _ _ _ (jsIncludes_mid _ _ _)
      | exact jsIncludes_append_right _ _ _ (jsIncludes_left _ _)

/-- The first title of the fallback list with a location is the first title
without one followed by the location phrase. -/
theorem getMockNewsData_first_title (source query location : String) (hs : IsOutlet source)
    (hl : location ≠ "") :
    ∃ r r', (getMockNewsData source query location).head? = some r ∧
      (getMockNewsData source query "").head? = some r' ∧
      r.title = r'.title ++ " in " ++ location := by
  have hloc : locationText location = " in " ++ location := by
    unfold locationText jsTruthyStr
    rw [if_pos (by simpa using hl)]
  have hempty : locationText "" = "" := by decide
  unfold getMockNewsData baseData
  rcases hs with h | h | h <;> subst h <;>
    simp [hloc, hempty, String.append_assoc]

/-- C9. Fallback synthesizer output: for every outlet key, query and location,
`getMockNewsData` (a function of these three arguments alone) returns exactly
5 records; every record's title contains the query, its url is the outlet's
homepage (`https://www.cnn.com`, `https://www.foxnews.com`,
`https://www.bbc.com/news`), its thumbnail is the outlet's placeholder and its
source field is the upper-cased key (`CNN`, `FOX`, `BBC`); and when the
location is non-empty the first title ends with the phrase ` in <location>`
appended to the title produced without a location. -/
theorem getMockNewsData_spec (source query location : String) (hs : IsOutlet source) :
    (getMockNewsData source query location).length = 5 ∧
    (∀ r ∈ getMockNewsData source query location,
      jsIncludes r.title query = true ∧ r.url = mockUrl source ∧
      r.thumbnail = mockThumbnail source ∧ r.source = toUpperCase source) ∧
    (mockUrl "cnn" = "https://www.cnn.com" ∧ mockUrl "fox" = "https://www.foxnews.com" ∧
      mockUrl "bbc" = "https://www.bbc.com/news") ∧
    (toUpperCase "cnn" = "CNN" ∧ toUpperCase "fox" = "FOX" ∧ toUpperCase "bbc" = "BBC") ∧
    (location ≠ "" →
      ∃ r r', (getMockNewsData source query location).head? = some r ∧
        (getMockNewsData source query "").head? = some r' ∧
        r.title = r'.title ++ " in " ++ location) := by
  refine ⟨?_, ?_, by decide, by decide, getMockNewsData_first_title source query location hs⟩
  · rw [getMockNewsData_length]; exact if_pos hs
  · obtain ⟨titles, hb, he⟩ := getMockNewsData_eq source query location hs
    intro r hr
    rw [he] at hr
    obtain ⟨t, ht, rfl⟩ := List.mem_map.1 hr
    exact ⟨baseData_titles_include _ _ _ _ _ hb t ht, rfl, rfl, rfl⟩

/-- Witness of `getMockNewsData_spec`: the key `fox`, the query `election`
and the location `Paris`. -/
theorem getMockNewsData_spec_witness :
    IsOutlet "fox" ∧ (getMockNewsData "fox" "election" "Paris").length = 5 ∧
    (getMockNewsData "fox" "election" "Paris").head? =
      some ⟨"election situation unfolds in Paris", "https://www.foxnews.com",
        "https://via.placeholder.com/640x360/003366/FFFFFF?text=Fox+News", "FOX"⟩ :=
  ⟨Or.inr (Or.inl rfl),
    (getMockNewsData_spec "fox" "election" "Paris" (Or.inr (Or.inl rfl))).1, by decide⟩

/-! ## Record well-formedness -/

/-- A prefix of a string is a prefix of its extensions. -/
theorem jsStartsWith_append (a b p : String) (h : jsStartsWith a p = true) :
    jsStartsWith (a ++ b) p = true := by
  unfold jsStartsWith at *
  rw [String.data_append]
  rw [List.isPrefixOf_iff_prefix] at *
  exact h.trans (List.prefix_append _ _)

/-- The base URL of every outlet begins with `http`. -/
theorem newsTarget_baseUrl (rt : JsRuntime) (source query baseUrl url : String)
    (h : newsTarget rt source query = some (baseUrl, url)) :
    jsStartsWith baseUrl "http" = true := by
  unfold newsTarget at h
  split_ifs at h <;> simp only [Option.some.injEq, Prod.mk.injEq] at h
  all_goals
    obtain ⟨rfl, -⟩ := h
    decide

/-- Under a base URL that begins with `http`, so does every absolutized link. -/
theorem absolutizeLink_startsWith (baseUrl link : String)
    (hb : jsStartsWith baseUrl "http" = true) :
    jsStartsWith (absolutizeLink baseUrl link) "http" = true := by
  unfold absolutizeLink
  by_cases h : jsStartsWith link "http" = true
  · simp [h]
  · simp only [h, Bool.not_eq_true] at *
    simp only [h, Bool.not_false, if_true]
    split_ifs
    · exact jsStartsWith_append _ _ _ hb
    · exact jsStartsWith_append _ _ _ (jsStartsWith_append _ _ _ hb)

/-- A string of positive length is not the empty string. -/
theorem ne_empty_of_length_pos {s : String} (h : 0 < jsLength s) : s ≠ "" := by
  intro e
  rw [e] at h
  exact absurd h (by decide)

/-- A concatenation with a non-empty left part is not empty. -/
theorem append_ne_empty_left {s t : String} (h : s ≠ "") : s ++ t ≠ "" := by
  intro e
  apply h
  have := congrArg String.data e
  rw [String.data_append] at this
  exact String.ext (List.append_eq_nil.1 this).1

/-- A concatenation with a non-empty right part is not empty. -/
theorem append_ne_empty_right {s t : String} (h : t ≠ "") : s ++ t ≠ "" := by
  intro e
  apply h
  have := congrArg String.data e
  rw [String.data_append] at this
  exact String.ext (List.append_eq_nil.1 this).2

/-- Every title template of the table is a non-empty string. -/
theorem baseData_titles_ne_empty (source query location thumbnail : String)
    (titles : List String)
    (h : baseData source query location = some (thumbnail, titles)) :
    ∀ t ∈ titles, t ≠ "" := by
  unfold baseData at h
  split_ifs at h <;> simp only [Option.some.injEq, Prod.mk.injEq] at h
  all_goals
    obtain ⟨-, rfl⟩ := h
    intro t ht
    simp only [List.mem_cons, List.mem_singleton, List.not_mem_nil, or_false] at ht
    rcases ht with rfl | rfl | rfl | rfl | rfl
    all_goals
      first
      | exact append_ne_empty_left (by decide)
      | exact append_ne_empty_right (by decide)
      | exact append_ne_empty_left (append_ne_empty_right (by decide))

/-- The homepage of every outlet begins with `http`. -/
theorem mockUrl_startsWith (source : String) : jsStartsWith (mockUrl source) "http" = true := by
  unfold mockUrl
  split_ifs <;> decide

/-- C10, evaluated at the failing input. When the page returned for `cnn` is
`relativeLinkPage`, `scrapeNews` returns a record whose url is the relative
reference `http-errors.html`, which begins with neither `http://` nor
`https://`. -/
theorem record_wellformed_failing_input :
    isAbsoluteUrl "http-errors.html" = false ∧
    scrapeNews sampleRuntime (fun _ => some relativeLinkPage) "cnn" "news" "" =
      [⟨"Hello world news", "http-errors.html", "", "CNN"⟩] := by
  decide

/-- What holds of every record `scrapeNews` returns, for every source key,
query, location and outcome of the request: the title is not empty and the
url begins with `http`. -/
theorem record_wellformed (rt : JsRuntime) (fetch : String → Option Page)
    (source query location : String) (r : ContentRecord)
    (hr : r ∈ scrapeNews rt fetch source query location) :
    r.title ≠ "" ∧ jsStartsWith r.url "http" = true := by
  rcases scrapeNews_cases rt fetch source query location with
    h | h | ⟨page, baseUrl, url, ht, _, _, h⟩
  · rw [h] at hr; simp at hr
  · rw [h] at hr
    unfold getMockNewsData at hr
    cases hb : baseData source query location with
    | none => rw [hb] at hr; simp at hr
    | some p =>
      obtain ⟨thumbnail, titles⟩ := p
      rw [hb] at hr
      obtain ⟨t, htm, rfl⟩ := List.mem_map.1 hr
      exact ⟨baseData_titles_ne_empty _ _ _ _ _ hb t htm, mockUrl_startsWith source⟩
  · rw [h] at hr
    obtain ⟨sel, -, c, -, href, -, -, hlen, rfl⟩ :=
      extractLoop_provenance page baseUrl source (selectors source) r hr
    exact ⟨ne_empty_of_length_pos (by show 0 < jsLength (jsTrim c.titleText); omega),
      absolutizeLink_startsWith baseUrl href (newsTarget_baseUrl rt source query baseUrl url ht)⟩

/-- The lemma `record_wellformed` at the record extracted from
`relativeLinkPage`. -/
theorem record_wellformed_witness :
    (⟨"Hello world news", "http-errors.html", "", "CNN"⟩ : ContentRecord) ∈
      scrapeNews sampleRuntime (fun _ => some relativeLinkPage) "cnn" "news" "" ∧
    "Hello world news" ≠ "" ∧ jsStartsWith "http-errors.html" "http" = true :=
  ⟨by decide,
    record_wellformed sampleRuntime (fun _ => some relativeLinkPage) "cnn" "news" ""
      ⟨"Hello world news", "http-errors.html", "", "CNN"⟩ (by decide)⟩

/-! ## The video fetcher -/

set_option maxRecDepth 100000

/-- The text handed to `JSON.parse` for each script of `twoScriptPage` is the
payload text. -/
theorem twoScriptPage_jsonStr :
    twoScriptPage.map (fun s => s.bind jsonStrOf) =
      [some firstPayloadText, some secondPayloadText] := by
  decide

/-- C5, evaluated at the failing input. On `twoScriptPage` the first script's
item list is one video followed by `null`: the video is pushed, the read of
`null.videoRenderer` throws, and the `catch` continues with the second script,
whose six videos are pushed onto the same list. The result has 7 entries. -/
theorem scrapeYouTube_exceeds_cap :
    (scrapeYouTube sampleRuntime sampleJsonRuntime (fun _ => some twoScriptPage) "news").length
      = 7 := by
  decide

/-! ## The search endpoint -/

/-- On a string or missing location, `scrapeNewsAt` is `scrapeNews` with the
missing location read as `''`. -/
theorem scrapeNewsAt_text (rt : JsRuntime) (fetch : String → Option Page)
    (source query location : String) :
    scrapeNewsAt rt fetch source query (some (.text location)) =
      scrapeNews rt fetch source query location ∧
    scrapeNewsAt rt fetch source query none = scrapeNews rt fetch source query "" := by
  unfold scrapeNewsAt scrapeNews
  constructor <;> rfl

/-- When the string conversion of an array or object location is not empty,
the fallback list is the one `getMockNewsData` gives for that string. -/
theorem getMockNewsDataAt_eq (source query : String) (location : QueryValue)
    (h : location.toText ≠ "") :
    getMockNewsDataAt source query location =
      getMockNewsData source query location.toText := by
  have hloc : locationText location.toText = " in " ++ location.toText := by
    unfold locationText jsTruthyStr
    rw [if_pos (by simpa using h)]
  have hempty : locationText "" = "" := by decide
  cases location with
  | text s => rfl
  | list items =>
    unfold getMockNewsDataAt getMockNewsData baseData
    split_ifs <;> simp [hloc, hempty, String.append_assoc] <;>
      (apply String.ext; simp [String.data_append])
  | object fields =>
    unfold getMockNewsDataAt getMockNewsData baseData
    split_ifs <;> simp [hloc, hempty, String.append_assoc] <;>
      (apply String.ext; simp [String.data_append])

/-- The handler on a missing or empty query. -/
theorem apiSearch_of_empty (rt : JsRuntime) (jrt : JsonRuntime)
    (fetchVideo : String → Option (List (Option String))) (fetchNews : String → Option Page)
    (req : SearchRequest) (h : req.query = none ∨ req.query = some (.text "")) :
    apiSearch rt jrt fetchVideo fetchNews req =
      (⟨400, .error "Query parameter required"⟩, []) := by
  unfold apiSearch
  rcases h with h | h
  · rw [h]
  · rw [h]; rfl

/-- The handler on a non-empty string query. -/
theorem apiSearch_of_text (rt : JsRuntime) (jrt : JsonRuntime)
    (fetchVideo : String → Option (List (Option String))) (fetchNews : String → Option Page)
    (req : SearchRequest) (query : String) (h : req.query = some (.text query))
    (hq : query ≠ "") :
    apiSearch rt jrt fetchVideo fetchNews req =
      (⟨200, .results
          [("youtube", .videos (scrapeYouTube rt jrt fetchVideo query)),
            ("tiktok", .records (scrapeTikTok rt query)),
            ("instagram", .records (scrapeInstagram rt query)),
            ("twitch", .records (scrapeTwitch rt query))]
          [("cnn", .records (scrapeNewsAt rt fetchNews "cnn" query req.location)),
            ("fox", .records (scrapeNewsAt rt fetchNews "fox" query req.location)),
            ("bbc", .records (scrapeNewsAt rt fetchNews "bbc" query req.location))]⟩,
        allFetcherCalls (.text query) req.location) := by
  have ht : jsTruthyStr query = true := by
    unfold jsTruthyStr; rw [bne_iff_ne]; exact hq
  unfold apiSearch
  rw [h]
  simp only [QueryValue.truthy, ht, Bool.not_true, Bool.false_eq_true, if_false]
  rfl

/-- The handler on a query that is an array or an object. -/
theorem apiSearch_of_structured (rt : JsRuntime) (jrt : JsonRuntime)
    (fetchVideo : String → Option (List (Option String))) (fetchNews : String → Option Page)
    (req : SearchRequest) (value : QueryValue) (h : req.query = some value)
    (hv : value.isText = false) :
    apiSearch rt jrt fetchVideo fetchNews req =
      (⟨500, .error "Search failed"⟩, allFetcherCalls value req.location) := by
  unfold apiSearch
  rw [h]
  cases value with
  | text s => simp [QueryValue.isText] at hv
  | list items => rfl
  | object fields => rfl

/-- C11 fails as stated, twice. The query `" "` is blank (white space only),
yet the handler invokes all seven fetchers and answers with status 200. The
query `["a", "b"]` (the key given twice) is not blank, yet the handler, after
invoking the seven fetchers, answers with status 500 and an error payload,
not with a bundle. -/
theorem blank_query_counterexample :
    (isBlankQuery (some (.text " ")) = true ∧
      (apiSearch sampleRuntime sampleJsonRuntime (fun _ => none) (fun _ => none)
        ⟨some (.text " "), none⟩).1.status = 200 ∧
      (apiSearch sampleRuntime sampleJsonRuntime (fun _ => none) (fun _ => none)
        ⟨some (.text " "), none⟩).2.length = 7) ∧
    (isBlankQuery (some (.list [.text "a", .text "b"])) = false ∧
      (apiSearch sampleRuntime sampleJsonRuntime (fun _ => none) (fun _ => none)
        ⟨some (.list [.text "a", .text "b"]), none⟩).1.status = 500 ∧
      bundleKeys (apiSearch sampleRuntime sampleJsonRuntime (fun _ => none) (fun _ => none)
        ⟨some (.list [.text "a", .text "b"]), none⟩).1.body = none ∧
      (apiSearch sampleRuntime sampleJsonRuntime (fun _ => none) (fun _ => none)
        ⟨some (.list [.text "a", .text "b"]), none⟩).2.length = 7) := by
  decide

/-- C11, amended. For every request, the handler responds with status 400 and
the JSON error payload, without invoking any source fetcher, exactly when the
query is missing or the empty string. For every other query it invokes all
seven fetchers; when that query is a string (one of white space only
included) it responds with status 200 and a bundle whose keys are
`social.youtube`, `social.tiktok`, `social.instagram`, `social.twitch`,
`news.cnn`, `news.fox` and `news.bbc`, and when it is an array or an object it
responds with status 500 and the JSON error payload of the `catch` branch. -/
theorem blank_query_rejection (rt : JsRuntime) (jrt : JsonRuntime)
    (fetchVideo : String → Option (List (Option String))) (fetchNews : String → Option Page)
    (req : SearchRequest) :
    ((apiSearch rt jrt fetchVideo fetchNews req).1.status = 400 ↔
      (req.query = none ∨ req.query = some (.text ""))) ∧
    ((apiSearch rt jrt fetchVideo fetchNews req).1.status = 400 →
      (apiSearch rt jrt fetchVideo fetchNews req).1.body = .error "Query parameter required" ∧
      (apiSearch rt jrt fetchVideo fetchNews req).2 = []) ∧
    ((apiSearch rt jrt fetchVideo fetchNews req).1.status ≠ 400 →
      ∃ value, req.query = some value ∧
        (apiSearch rt jrt fetchVideo fetchNews req).2 = allFetcherCalls value req.location ∧
        (value.isText = true →
          (apiSearch rt jrt fetchVideo fetchNews req).1.status = 200 ∧
          bundleKeys (apiSearch rt jrt fetchVideo fetchNews req).1.body =
            some (["youtube", "tiktok", "instagram", "twitch"], ["cnn", "fox", "bbc"])) ∧
        (value.isText = false →
          (apiSearch rt jrt fetchVideo fetchNews req).1.status = 500 ∧
          (apiSearch rt jrt fetchVideo fetchNews req).1.body = .error "Search failed")) := by
  have h200 : (200 : Nat) ≠ 400 := by decide
  have h500 : (500 : Nat) ≠ 400 := by decide
  by_cases h : req.query = none ∨ req.query = some (.text "")
  · have e := apiSearch_of_empty rt jrt fetchVideo fetchNews req h
    rw [e]
    exact ⟨⟨fun _ => h, fun _ => rfl⟩, fun _ => ⟨rfl, rfl⟩, fun hne => absurd rfl hne⟩
  · cases hr : req.query with
    | none => exact absurd (Or.inl hr) h
    | some value =>
      cases value with
      | text query =>
        have hne : query ≠ "" := by
          intro e0
          exact h (Or.inr (by rw [hr, e0]))
        have e := apiSearch_of_text rt jrt fetchVideo fetchNews req query hr hne
        rw [e]
        refine ⟨⟨fun h4 => absurd h4 h200, fun h' => ?_⟩, fun h4 => absurd h4 h200,
          fun _ => ⟨_, rfl, rfl, fun _ => ⟨rfl, rfl⟩, fun hf => ?_⟩⟩
        · rcases h' with h' | h'
          · exact absurd h' (by simp)
          · exact absurd (by simpa using h') hne
        · simp [QueryValue.isText] at hf
      | list items =>
        have e := apiSearch_of_structured rt jrt fetchVideo fetchNews req _ hr rfl
        rw [e]
        refine ⟨⟨fun h4 => absurd h4 h500, fun h' => ?_⟩, fun h4 => absurd h4 h500,
          fun _ => ⟨_, rfl, rfl, fun ht => ?_, fun _ => ⟨rfl, rfl⟩⟩⟩
        · rcases h' with h' | h' <;> simp at h'
        · simp [QueryValue.isText] at ht
      | object fields =>
        have e := apiSearch_of_structured rt jrt fetchVideo fetchNews req _ hr rfl
        rw [e]
        refine ⟨⟨fun h4 => absurd h4 h500, fun h' => ?_⟩, fun h4 => absurd h4 h500,
          fun _ => ⟨_, rfl, rfl, fun ht => ?_, fun _ => ⟨rfl, rfl⟩⟩⟩
        · rcases h' with h' | h' <;> simp at h'
        · simp [QueryValue.isText] at ht

/-! ## Priority-ordered quota filling -/

/-- The callback, read on the candidate of the container. -/
theorem processElem_eq_keepIfRoom (baseUrl source : String) (results : List ContentRecord)
    (c : Container) :
    processElem baseUrl source results c =
      match candidateRecord baseUrl source c with
      | none => results
      | some r => keepIfRoom results r := by
  unfold processElem candidateRecord keepIfRoom keepIfNew
  by_cases hlen : results.length ≥ 5
  · rw [if_pos hlen]
    cases c.href with
    | none => rfl
    | some href =>
      simp only []
      split_ifs <;> simp [hlen]
  · rw [if_neg hlen]
    cases c.href with
    | none => rfl
    | some href =>
      simp only []
      by_cases hg : (jsTruthyStr (jsTrim c.titleText) && jsTruthyStr href &&
          decide (jsLength (jsTrim c.titleText) > 10)) = true
      · rw [if_pos hg, if_pos hg]
        simp only [if_neg hlen, isDuplicate, recordOf]
        by_cases hd : (results.any fun r =>
            r.title == jsTrim c.titleText || r.url == absolutizeLink baseUrl href) = true
        · simp [hd]
        · simp [hd]
      · rw [if_neg hg, if_neg hg]

/-- A scan of containers is a fold of `keepIfRoom` over their candidates. -/
theorem scan_eq_foldl_keepIfRoom (baseUrl source : String) (cs : List Container) :
    ∀ results, cs.foldl (processElem baseUrl source) results =
      (cs.filterMap (candidateRecord baseUrl source)).foldl keepIfRoom results := by
  induction cs with
  | nil => intro results; rfl
  | cons c cs ih =>
    intro results
    rw [List.foldl_cons, ih, processElem_eq_keepIfRoom]
    cases h : candidateRecord baseUrl source c with
    | none => simp [List.filterMap_cons, h]
    | some r => simp [List.filterMap_cons, h]

/-- Five records are left alone by any further candidates. -/
theorem foldl_keepIfRoom_of_full (rs : List ContentRecord) :
    ∀ kept : List ContentRecord, kept.length ≥ 5 → rs.foldl keepIfRoom kept = kept := by
  induction rs with
  | nil => intro kept _; rfl
  | cons r rs ih =>
    intro kept h
    rw [List.foldl_cons]
    have : keepIfRoom kept r = kept := by unfold keepIfRoom; rw [if_pos h]
    rw [this]
    exact ih kept h

/-- The whole loop is a fold of `keepIfRoom` over the candidates of the
scanned containers. -/
theorem extractLoop_eq_foldl_keepIfRoom (page : Page) (baseUrl source : String)
    (sels : List Selector) :
    ∀ results, extractLoop page baseUrl source sels results =
      ((scannedContainers page sels).filterMap (candidateRecord baseUrl source)).foldl
        keepIfRoom results := by
  induction sels with
  | nil => intro results; simp [extractLoop, scannedContainers]
  | cons sel rest ih =>
    intro results
    unfold extractLoop
    by_cases h : results.length ≥ 5
    · rw [if_pos h, foldl_keepIfRoom_of_full _ results h]
    · rw [if_neg h, ih, scan_eq_foldl_keepIfRoom]
      simp only [scannedContainers, List.flatMap_cons, List.filterMap_append, List.foldl_append]

/-- Dropping repeats only appends to the records kept so far. -/
theorem dropRepeats_extends (rs : List ContentRecord) :
    ∀ kept : List ContentRecord, kept <+: dropRepeats kept rs := by
  induction rs with
  | nil => intro kept; exact List.prefix_refl kept
  | cons r rs ih =>
    intro kept
    unfold dropRepeats
    rw [List.foldl_cons]
    have hstep : kept <+: keepIfNew kept r := by
      unfold keepIfNew
      split_ifs
      · exact List.prefix_refl kept
      · exact List.prefix_append kept [r]
    exact hstep.trans (ih (keepIfNew kept r))

/-- The first five of a list that extends five records are those records. -/
theorem take_five_of_extends {kept l : List ContentRecord} (h : kept <+: l)
    (hlen : kept.length = 5) : l.take 5 = kept := by
  obtain ⟨t, rfl⟩ := h
  rw [← hlen, List.take_left]

/-- The capped fold is the first five of the uncapped one. -/
theorem foldl_keepIfRoom_eq_take (rs : List ContentRecord) :
    ∀ kept : List ContentRecord, kept.length ≤ 5 →
      rs.foldl keepIfRoom kept = (dropRepeats kept rs).take 5 := by
  induction rs with
  | nil =>
    intro kept h
    simp [dropRepeats, List.take_of_length_le h]
  | cons r rs ih =>
    intro kept h
    by_cases hfull : kept.length ≥ 5
    · have h5 : kept.length = 5 := by omega
      rw [foldl_keepIfRoom_of_full _ kept hfull,
        take_five_of_extends (dropRepeats_extends (r :: rs) kept) h5]
    · rw [List.foldl_cons]
      have hstep : keepIfRoom kept r = keepIfNew kept r := by
        unfold keepIfRoom; rw [if_neg hfull]
      have hlen : (keepIfNew kept r).length ≤ 5 := by
        unfold keepIfNew
        split_ifs
        · exact h
        · simp only [List.length_append, List.length_singleton]; omega
      rw [hstep, ih _ hlen]
      rfl

/-- Once five records are held, the remaining strategies add nothing. -/
theorem extractLoop_of_full (page : Page) (baseUrl source : String) (sels : List Selector)
    (results : List ContentRecord) (h : results.length ≥ 5) :
    extractLoop page baseUrl source sels results = results := by
  cases sels with
  | nil => rfl
  | cons sel rest => unfold extractLoop; rw [if_pos h]

/-- C12 fails as stated: on `tenCharTitlePage` the only container has a link
and a title of exactly 10 characters, which the specification's check ("reject
if shorter than 10 characters") keeps, so the described list holds its record;
the loop rejects it (`title.length > 10`) and accumulates nothing. -/
theorem quota_filling_counterexample :
    extractNews tenCharTitlePage "https://www.cnn.com" "cnn" = [] ∧
    specQuotaFilling tenCharTitlePage "https://www.cnn.com" "cnn" (selectors "cnn") =
      [⟨"0123456789", "https://www.cnn.com/a/b", "", "CNN"⟩] := by
  decide

/-- C12, amended. For every page, base URL, source key and strategy list (so
for the catalog of every source), the list accumulated by the extraction loop
of `scrapeNews` equals the first 5 records of the list obtained by taking, in
catalog order, the first 8 matching containers of each strategy, keeping the
candidates with a title and a link whose trimmed title is longer than 10 code
units, building their records as the loop does, and dropping each candidate
whose title or url equals that of an earlier kept record; in particular, when
the first strategy alone yields 5 accepted records, the result is exactly
those records, whatever the later strategies match. -/
theorem quota_filling (page : Page) (baseUrl source : String) (sels : List Selector) :
    extractLoop page baseUrl source sels [] = quotaFilling page baseUrl source sels ∧
    extractNews page baseUrl source = quotaFilling page baseUrl source (selectors source) ∧
    ∀ sel rest, (extractLoop page baseUrl source [sel] []).length = 5 →
      extractLoop page baseUrl source (sel :: rest) [] =
        extractLoop page baseUrl source [sel] [] := by
  have key : ∀ ss, extractLoop page baseUrl source ss [] =
      quotaFilling page baseUrl source ss := by
    intro ss
    rw [extractLoop_eq_foldl_keepIfRoom, foldl_keepIfRoom_eq_take _ [] (by simp)]
    rfl
  refine ⟨key sels, key (selectors source), ?_⟩
  intro sel rest h
  have h1 : extractLoop page baseUrl source [sel] [] =
      ((page sel).take 8).foldl (processElem baseUrl source) [] := by
    simp [extractLoop]
  rw [h1] at h ⊢
  have h2 : extractLoop page baseUrl source (sel :: rest) [] =
      extractLoop page baseUrl source rest
        (((page sel).take 8).foldl (processElem baseUrl source) []) := by
    conv_lhs => unfold extractLoop
    simp
  rw [h2]
  exact extractLoop_of_full page baseUrl source rest _ (by omega)

/-- Witness of `quota_filling`: on `fullFirstStrategyPage` the first `cnn`
strategy alone yields 5 records, and the loop over the whole `cnn` catalog
returns the same list, without the container of the second strategy. -/
theorem quota_filling_witness :
    (extractLoop fullFirstStrategyPage "https://www.cnn.com" "cnn"
      [⟨".container__item", ".container__title", "a", "img"⟩] []).length = 5 ∧
    extractLoop fullFirstStrategyPage "https://www.cnn.com" "cnn"
      [⟨".container__item", ".container__title", "a", "img"⟩, ⟨".card", "h3", "a", "img"⟩,
        ⟨"article", "h2, h3", "a", "img"⟩] [] =
    extractLoop fullFirstStrategyPage "https://www.cnn.com" "cnn"
      [⟨".container__item", ".container__title", "a", "img"⟩] [] :=
  ⟨by decide,
    (quota_filling fullFirstStrategyPage "https://www.cnn.com" "cnn" []).2.2 _ _ (by decide)⟩

end Waypoint
